import Mathlib

/-!
Shallow embedding of the Kwenta perps subgraph mapping code (src/src/perps.ts).

Modelling conventions:
- graph-ts BigInt is modelled as Int; BigInt.div and BigInt.mod truncate toward
  zero, so they are modelled by Int.tdiv and Int.tmod.
- Addresses, transaction hashes, bytes values and tracking codes are modelled
  as Nat (the value of their hex string); nullable entity fields are Option.
- The entity store is a record of key-indexed partial maps, one per entity
  type; entity.save() is a functional map update at the entity key.
- Composite string keys such as market-positionId or txHash-logIndex are
  modelled as tuples; distinct components always produce distinct source
  strings, so tupling is faithful.
-/

namespace Perps

/-- 18-decimal fixed point unit, ETHER in the helpers module. -/
def ETHER : Int := 10 ^ 18

/-- ZERO_ADDRESS constant from the helpers module. -/
def ZERO_ADDRESS : Nat := 0

/-- ONE_HOUR_SECONDS from the helpers module. -/
def ONE_HOUR_SECONDS : Int := 3600

/-- DAY_SECONDS from the helpers module. -/
def DAY_SECONDS : Int := 86400

/-- Timeframes to aggregate stats, in seconds (AGG_PERIODS in perps.ts). -/
def AGG_PERIODS : List Int := [ONE_HOUR_SECONDS, DAY_SECONDS]

/-- Account classification used throughout the handlers. -/
inductive AccountType where
  | isolatedMargin
  | smartMargin
deriving DecidableEq

/-- The order-type strings appearing in the source; smart-margin order types
coming from a SmartMarginOrder entity are abstracted by the sm constructor. -/
inductive OrderTypeE where
  | Market
  | Liquidation
  | Delayed
  | DelayedOffchain
  | sm (code : Nat)
deriving DecidableEq

/-- Status strings of a FuturesOrder entity. -/
inductive OrderStatus where
  | Pending
  | Filled
  | Cancelled
deriving DecidableEq

/-- Key space of FuturesCumulativeStat entities: the global singleton uses the
string key 0 (SINGLE_INDEX) while market rows use the hex string of the market
asset; the two families are always distinct strings. -/
inductive CumKey where
  | global
  | hexOf (a : Nat)
deriving DecidableEq

/-- Asset coordinate of a FuturesAggregateStat key: the all-markets row keys on
the empty byte string, market rows on the (possibly null) asset bytes. -/
inductive AggAsset where
  | emptyBytes
  | ofBytes (a : Option Nat)
deriving DecidableEq

/-- Conversion of a nullable bytes value into an aggregate key coordinate. -/
def aggAssetOf (a : Option Nat) : AggAsset := AggAsset.ofBytes a

/-- SmartMarginAccount entity: maps a proxy address to its owner. -/
structure SmartMarginAccount where
  owner : Nat
deriving DecidableEq

/-- FuturesMarket entity (fields read by the embedded handlers). -/
structure FuturesMarket where
  asset : Option Nat
  marketKey : Option Nat
deriving DecidableEq

/-- FuturesPosition entity. -/
structure FuturesPosition where
  market : Nat
  asset : Option Nat
  marketKey : Option Nat
  account : Nat
  abstractAccount : Nat
  accountType : AccountType
  isLiquidated : Bool
  isOpen : Bool
  size : Int
  timestamp : Int
  openTimestamp : Int
  closeTimestamp : Option Int
  avgEntryPrice : Int
  entryPrice : Int
  exitPrice : Option Int
  lastPrice : Int
  margin : Int
  initialMargin : Int
  pnl : Int
  feesPaid : Int
  netFunding : Int
  pnlWithFeesPaid : Int
  netTransfers : Int
  totalDeposits : Int
  totalVolume : Int
  trades : Int
  fundingIndex : Int
  lastTxHash : Nat
deriving DecidableEq

/-- FuturesStat entity (lifetime per-trader rollup). -/
structure FuturesStat where
  account : Nat
  feesPaid : Int
  pnl : Int
  pnlWithFeesPaid : Int
  liquidations : Int
  totalTrades : Int
  totalVolume : Int
  smartMarginVolume : Int
deriving DecidableEq

/-- FuturesTrade entity. -/
structure FuturesTrade where
  timestamp : Int
  account : Nat
  abstractAccount : Nat
  accountType : AccountType
  margin : Int
  size : Int
  asset : Option Nat
  marketKey : Option Nat
  price : Int
  positionId : Nat × Nat
  positionSize : Int
  positionClosed : Bool
  pnl : Int
  feesPaid : Int
  fundingAccrued : Int
  keeperFeesPaid : Int
  orderType : OrderTypeE
  trackingCode : Nat
deriving DecidableEq

/-- FuturesMarginTransfer entity (fields read by handlePositionModified). -/
structure FuturesMarginTransfer where
  account : Nat
  market : Nat
  size : Int
  timestamp : Int
deriving DecidableEq

/-- FuturesMarginAccount entity. -/
structure FuturesMarginAccount where
  account : Nat
  market : Nat
  margin : Int
  deposits : Int
  withdrawals : Int
  timestamp : Int
deriving DecidableEq

/-- FuturesCumulativeStat entity. -/
structure FuturesCumulativeStat where
  totalLiquidations : Int
  totalTrades : Int
  totalTraders : Int
  totalVolume : Int
  averageTradeSize : Int
deriving DecidableEq

/-- FuturesAggregateStat entity. -/
structure FuturesAggregateStat where
  period : Int
  timestamp : Int
  marketKey : AggAsset
  asset : AggAsset
  trades : Int
  volume : Int
  feesKwenta : Int
  feesSynthetix : Int
  feesCrossMarginAccounts : Int
deriving DecidableEq

/-- FundingRateUpdate entity (fields read by handlePositionModified). -/
structure FundingRateUpdate where
  timestamp : Int
  funding : Int
  fundingRate : Int
deriving DecidableEq

/-- FundingPayment entity. -/
structure FundingPayment where
  timestamp : Int
  account : Nat
  positionId : Nat × Nat
  marketKey : Option Nat
  asset : Option Nat
  amount : Int
deriving DecidableEq

/-- FuturesOrder entity. -/
structure FuturesOrder where
  size : Int
  marketKey : Option Nat
  account : Nat
  abstractAccount : Nat
  targetPrice : Int
  marginDelta : Int
  timestamp : Int
  txnHash : Nat
  orderId : Int
  orderType : OrderTypeE
  status : OrderStatus
  keeper : Nat
deriving DecidableEq

/-- SmartMarginOrder entity (fields read by handleDelayedOrderRemoved). -/
structure SmartMarginOrder where
  recordTrade : Bool
  orderType : Option OrderTypeE
deriving DecidableEq

/-- The entity store: one partial map per entity type, addressed by the key
shapes the source builds out of addresses, hashes and indices. -/
structure Store where
  smartMarginAccounts : Nat → Option SmartMarginAccount
  markets : Nat → Option FuturesMarket
  positions : Nat × Nat → Option FuturesPosition
  stats : Nat → Option FuturesStat
  trades : Nat × Int → Option FuturesTrade
  marginTransfers : Nat × Nat × Int → Option FuturesMarginTransfer
  marginAccounts : Nat × Nat → Option FuturesMarginAccount
  fundingRateUpdates : Nat × Int → Option FundingRateUpdate
  fundingPayments : (Nat × Nat) × Nat × Int → Option FundingPayment
  cumulativeStats : CumKey → Option FuturesCumulativeStat
  aggregateStats : Int × Int × AggAsset → Option FuturesAggregateStat
  orders : Option Nat × Nat × Int → Option FuturesOrder
  smartMarginOrders : Nat × Option Nat → Option SmartMarginOrder

/-- Entity save: update a partial map at one key. -/
def upd {K V : Type} [DecidableEq K] (m : K → Option V) (k : K) (v : V) :
    K → Option V :=
  fun k2 => if k2 = k then some v else m k2

def Store.savePosition (st : Store) (k : Nat × Nat) (v : FuturesPosition) : Store :=
  { st with positions := upd st.positions k v }

def Store.saveStat (st : Store) (k : Nat) (v : FuturesStat) : Store :=
  { st with stats := upd st.stats k v }

def Store.saveTrade (st : Store) (k : Nat × Int) (v : FuturesTrade) : Store :=
  { st with trades := upd st.trades k v }

def Store.saveMarginAccount (st : Store) (k : Nat × Nat) (v : FuturesMarginAccount) : Store :=
  { st with marginAccounts := upd st.marginAccounts k v }

def Store.saveFundingPayment (st : Store) (k : (Nat × Nat) × Nat × Int) (v : FundingPayment) : Store :=
  { st with fundingPayments := upd st.fundingPayments k v }

def Store.saveCumulative (st : Store) (k : CumKey) (v : FuturesCumulativeStat) : Store :=
  { st with cumulativeStats := upd st.cumulativeStats k v }

def Store.saveAggregate (st : Store) (k : Int × Int × AggAsset) (v : FuturesAggregateStat) : Store :=
  { st with aggregateStats := upd st.aggregateStats k v }

def Store.saveOrder (st : Store) (k : Option Nat × Nat × Int) (v : FuturesOrder) : Store :=
  { st with orders := upd st.orders k v }

def Store.saveSmartMarginOrder (st : Store) (k : Nat × Option Nat) (v : SmartMarginOrder) : Store :=
  { st with smartMarginOrders := upd st.smartMarginOrders k v }

/-- Event metadata common to all handlers: emitting contract address, the
transaction hash, log index, block timestamp and transaction sender. -/
structure Ctx where
  address : Nat
  txHash : Nat
  logIndex : Int
  timestamp : Int
  txFrom : Nat

/-- Parameters of a PositionModified event. -/
structure PositionModifiedParams where
  account : Nat
  id : Nat
  size : Int
  margin : Int
  lastPrice : Int
  tradeSize : Int
  fee : Int
  fundingIndex : Int

/-- Parameters of a PositionLiquidated event. -/
structure PositionLiquidatedParams where
  account : Nat
  id : Nat
  size : Int
  fee : Int

/-- Parameters of the V2 PositionLiquidated event with a three-part fee. -/
structure PositionLiquidatedV2Params where
  account : Nat
  id : Nat
  size : Int
  flaggerFee : Int
  liquidatorFee : Int
  stakersFee : Int

/-- Parameters of a DelayedOrderRemoved event. -/
structure DelayedOrderRemovedParams where
  account : Nat
  targetRoundId : Int
  keeperDeposit : Int
  trackingCode : Nat

/-- The bytes32 KWENTA tracking code, abstracted as a distinguished value. -/
def KWENTA_CODE : Nat := 1

/-- Account resolution: a smart-margin proxy resolves to its registered owner,
otherwise the sending address is the account itself. -/
def resolveAccount (st : Store) (sendingAccount : Nat) : Nat :=
  match st.smartMarginAccounts sendingAccount with
  | some sma => sma.owner
  | none => sendingAccount

/-- Account-type classification accompanying resolveAccount. -/
def resolveAccountType (st : Store) (sendingAccount : Nat) : AccountType :=
  match st.smartMarginAccounts sendingAccount with
  | some _ => AccountType.smartMargin
  | none => AccountType.isolatedMargin

/-- getOrCreateCumulativeEntity from perps.ts: load the global ("0"-keyed)
cumulative stat entity or produce a zeroed one. -/
def getOrCreateCumulativeEntity (st : Store) : FuturesCumulativeStat :=
  match st.cumulativeStats CumKey.global with
  | some c => c
  | none =>
    { totalLiquidations := 0, totalTrades := 0, totalTraders := 0
      totalVolume := 0, averageTradeSize := 0 }

/-- getOrCreateMarketCumulativeStats from perps.ts. -/
def getOrCreateMarketCumulativeStats (st : Store) (k : CumKey) : FuturesCumulativeStat :=
  match st.cumulativeStats k with
  | some c => c
  | none =>
    { totalLiquidations := 0, totalTrades := 0, totalTraders := 0
      totalVolume := 0, averageTradeSize := 0 }

/-- getOrCreateMarketAggregateStats from perps.ts. -/
def getOrCreateMarketAggregateStats (st : Store) (marketKey : AggAsset) (asset : AggAsset)
    (timestamp : Int) (period : Int) : FuturesAggregateStat :=
  match st.aggregateStats (timestamp, period, asset) with
  | some a => a
  | none =>
    { period := period, timestamp := timestamp, marketKey := marketKey, asset := asset
      trades := 0, volume := 0, feesKwenta := 0, feesSynthetix := 0
      feesCrossMarginAccounts := 0 }

/-- getTimeID from perps.ts: truncate a timestamp to the start of its bucket. -/
def getTimeID (timestamp : Int) (num : Int) : Int :=
  timestamp - Int.tmod timestamp num

/-- One loop iteration of updateAggregateStatEntities: upsert the market row
and the all-markets row for one aggregation period. -/
def updateAggPeriod (accountType : AccountType) (marketKey : AggAsset) (asset : AggAsset)
    (timestamp : Int) (trades : Int) (volume : Int) (feesSynthetix : Int) (feesKwenta : Int)
    (st : Store) (thisPeriod : Int) : Store :=
  let aggTimestamp := getTimeID timestamp thisPeriod
  let totalFees := feesSynthetix + feesKwenta
  let feesCrossMarginAccounts :=
    if accountType = AccountType.smartMargin then totalFees else 0
  let aggStats := getOrCreateMarketAggregateStats st marketKey asset aggTimestamp thisPeriod
  let aggStats1 :=
    { aggStats with
      trades := aggStats.trades + trades
      volume := aggStats.volume + volume
      feesSynthetix := aggStats.feesSynthetix + feesSynthetix
      feesKwenta := aggStats.feesKwenta + feesKwenta
      feesCrossMarginAccounts := aggStats.feesCrossMarginAccounts + feesCrossMarginAccounts }
  let st1 := st.saveAggregate (aggTimestamp, thisPeriod, asset) aggStats1
  let aggCumulativeStats :=
    getOrCreateMarketAggregateStats st1 AggAsset.emptyBytes AggAsset.emptyBytes aggTimestamp thisPeriod
  let aggCumulativeStats1 :=
    { aggCumulativeStats with
      trades := aggCumulativeStats.trades + trades
      volume := aggCumulativeStats.volume + volume
      feesSynthetix := aggCumulativeStats.feesSynthetix + feesSynthetix
      feesKwenta := aggCumulativeStats.feesKwenta + feesKwenta
      feesCrossMarginAccounts := aggCumulativeStats.feesCrossMarginAccounts + feesCrossMarginAccounts }
  st1.saveAggregate (aggTimestamp, thisPeriod, AggAsset.emptyBytes) aggCumulativeStats1

/-- updateAggregateStatEntities from perps.ts: fold updateAggPeriod over the
configured aggregation periods. -/
def updateAggregateStatEntities (accountType : AccountType) (marketKey : AggAsset)
    (asset : AggAsset) (timestamp : Int) (trades : Int) (volume : Int)
    (feesSynthetix : Int) (feesKwenta : Int) (st : Store) : Store :=
  AGG_PERIODS.foldl
    (updateAggPeriod accountType marketKey asset timestamp trades volume feesSynthetix feesKwenta)
    st

/-- The zeroed FuturesStat entity created during a first interaction
(handlePositionModified lines 105-117). -/
def newFuturesStat (account : Nat) : FuturesStat :=
  { account := account, feesPaid := 0, pnl := 0, pnlWithFeesPaid := 0
    liquidations := 0, totalTrades := 0, totalVolume := 0, smartMarginVolume := 0 }

/-- The FuturesPosition entity created for a new position
(handlePositionModified lines 120-149). The source leaves lastTxHash,
exitPrice and closeTimestamp unset at creation; lastTxHash is unconditionally
assigned before the first save, so its placeholder value 0 is never observable. -/
def newFuturesPosition (ctx : Ctx) (p : PositionModifiedParams)
    (marketEntity : Option FuturesMarket) (account : Nat) (sendingAccount : Nat)
    (accountType : AccountType) : FuturesPosition :=
  { market := ctx.address
    asset := match marketEntity with | some m => m.asset | none => none
    marketKey := match marketEntity with | some m => m.marketKey | none => none
    account := account
    abstractAccount := sendingAccount
    accountType := accountType
    isLiquidated := false
    isOpen := true
    size := p.size
    timestamp := ctx.timestamp
    openTimestamp := ctx.timestamp
    closeTimestamp := none
    avgEntryPrice := p.lastPrice
    entryPrice := p.lastPrice
    exitPrice := none
    lastPrice := p.lastPrice
    margin := p.margin
    initialMargin := p.margin + p.fee
    pnl := 0
    feesPaid := 0
    netFunding := 0
    pnlWithFeesPaid := 0
    netTransfers := 0
    totalDeposits := 0
    totalVolume := 0
    trades := 0
    fundingIndex := p.fundingIndex
    lastTxHash := 0 }

/-- Funding accrual stage of handlePositionModified (lines 151-191): when the
stored funding index differs from the event index and both FundingRateUpdate
checkpoints exist, accrue funding on the position, charge it negatively to the
stat feesPaid, emit a FundingPayment when non-zero, and advance the index.
Returns (fundingAccrued, position, stat, store). -/
def applyFunding (st : Store) (ctx : Ctx) (p : PositionModifiedParams)
    (positionKey : Nat × Nat) (position : FuturesPosition) (stat : FuturesStat)
    (account : Nat) : Int × FuturesPosition × FuturesStat × Store :=
  if position.fundingIndex ≠ p.fundingIndex then
    match st.fundingRateUpdates (ctx.address, position.fundingIndex),
          st.fundingRateUpdates (ctx.address, p.fundingIndex) with
    | some pastFundingEntity, some currentFundingEntity =>
      let fundingAccrued :=
        Int.tdiv ((currentFundingEntity.funding - pastFundingEntity.funding) * position.size) ETHER
      let st1 :=
        if 0 < (fundingAccrued.natAbs : Int) then
          st.saveFundingPayment (positionKey, ctx.txHash, ctx.logIndex)
            { timestamp := ctx.timestamp, account := account, positionId := positionKey
              marketKey := position.marketKey, asset := position.asset
              amount := fundingAccrued }
        else st
      (fundingAccrued,
       { position with
          netFunding := position.netFunding + fundingAccrued
          fundingIndex := p.fundingIndex },
       { stat with feesPaid := stat.feesPaid - fundingAccrued },
       st1)
    | _, _ => (0, position, stat, st)
  else (0, position, stat, st)

/-- Non-zero tradeSize branch of handlePositionModified (lines 194-322):
create the trade entity, apply the PnL / average-entry-price policy by case,
and update cumulative, stat, position and aggregate rollups.
Returns (position, stat, cumulative, store). -/
def tradeBranch (ctx : Ctx) (p : PositionModifiedParams) (account : Nat)
    (sendingAccount : Nat) (accountType : AccountType)
    (marketEntity : Option FuturesMarket) (positionKey : Nat × Nat)
    (fundingAccrued : Int) (position : FuturesPosition) (stat : FuturesStat)
    (cumulative : FuturesCumulativeStat) (st : Store) :
    FuturesPosition × FuturesStat × FuturesCumulativeStat × Store :=
  let tradeEntity0 : FuturesTrade :=
    { timestamp := ctx.timestamp
      account := account
      abstractAccount := sendingAccount
      accountType := accountType
      margin := p.margin + p.fee
      size := p.tradeSize
      asset := match marketEntity with | some m => m.asset | none => some ZERO_ADDRESS
      marketKey := match marketEntity with | some m => m.marketKey | none => some ZERO_ADDRESS
      price := p.lastPrice
      positionId := positionKey
      positionSize := p.size
      positionClosed := decide (p.size = 0)
      pnl := 0
      feesPaid := p.fee
      fundingAccrued := fundingAccrued
      keeperFeesPaid := 0
      orderType := OrderTypeE.Market
      trackingCode := ZERO_ADDRESS }
  let step : FuturesTrade × FuturesPosition × FuturesStat :=
    if p.size = 0 then
      -- position closed in this transaction (lines 227-238)
      let newPnl := Int.tdiv ((p.lastPrice - position.avgEntryPrice) * position.size) ETHER
      ({ tradeEntity0 with pnl := newPnl },
       { position with
          pnl := position.pnl + newPnl
          isOpen := false
          exitPrice := some p.lastPrice
          closeTimestamp := some ctx.timestamp },
       { stat with pnl := stat.pnl + newPnl })
    else if (position.size < 0 ∧ 0 < p.size) ∨ (0 < position.size ∧ p.size < 0) then
      -- position changes sides: realize PnL and reset the entry price (242-255)
      let newPnl := Int.tdiv ((p.lastPrice - position.avgEntryPrice) * position.size) ETHER
      ({ tradeEntity0 with pnl := newPnl },
       { position with
          pnl := position.pnl + newPnl
          entryPrice := p.lastPrice
          avgEntryPrice := p.lastPrice },
       { stat with pnl := stat.pnl + newPnl })
    else if position.size.natAbs < p.size.natAbs then
      -- same-side size increase: weighted average entry price (258-266)
      let existingSize : Int := (position.size.natAbs : Int)
      let existingPrice := existingSize * position.entryPrice
      let newSize : Int := (p.tradeSize.natAbs : Int)
      let newPrice := newSize * p.lastPrice
      (tradeEntity0,
       { position with
          entryPrice := Int.tdiv (existingPrice + newPrice) (p.size.natAbs : Int)
          avgEntryPrice := Int.tdiv (existingPrice + newPrice) (p.size.natAbs : Int) },
       stat)
    else
      -- same-side size reduction: realize PnL on the traded amount (268-280)
      let newPnl :=
        Int.tdiv
          ((p.lastPrice - position.avgEntryPrice) * (p.tradeSize.natAbs : Int) *
            (if 0 < p.size then 1 else -1)) ETHER
      ({ tradeEntity0 with pnl := newPnl },
       { position with pnl := position.pnl + newPnl },
       { stat with pnl := stat.pnl + newPnl })
  let tradeEntity1 := step.1
  let position1 := step.2.1
  let stat1 := step.2.2
  let st1 := st.saveTrade (ctx.txHash, ctx.logIndex) tradeEntity1
  let volume : Int := ((Int.tdiv (tradeEntity1.size * tradeEntity1.price) ETHER).natAbs : Int)
  let cumulative1 :=
    { cumulative with
      totalTrades := cumulative.totalTrades + 1
      totalVolume := cumulative.totalVolume + volume }
  let cumulative2 :=
    { cumulative1 with averageTradeSize := Int.tdiv cumulative1.totalVolume cumulative1.totalTrades }
  let stat2 :=
    { stat1 with
      totalTrades := stat1.totalTrades + 1
      totalVolume := stat1.totalVolume + volume
      smartMarginVolume :=
        stat1.smartMarginVolume + (if accountType = AccountType.smartMargin then volume else 0) }
  let position2 :=
    { position1 with trades := position1.trades + 1, totalVolume := position1.totalVolume + volume }
  let st2 :=
    match marketEntity with
    | some m =>
      match m.asset with
      | some a =>
        let mcs0 := getOrCreateMarketCumulativeStats st1 (CumKey.hexOf a)
        let mcs1 :=
          { mcs0 with
            totalTrades := mcs0.totalTrades + 1
            totalVolume := mcs0.totalVolume + volume }
        let mcs2 := { mcs1 with averageTradeSize := Int.tdiv mcs1.totalVolume mcs1.totalTrades }
        let stA := st1.saveCumulative (CumKey.hexOf a) mcs2
        updateAggregateStatEntities accountType (aggAssetOf position2.marketKey)
          (aggAssetOf position2.asset) ctx.timestamp 1 volume p.fee 0 stA
      | none => st1
    | none => st1
  (position2, stat2, cumulative2, st2)

/-- Zero tradeSize branch of handlePositionModified (lines 323-381): classify
the event as a margin transfer (when a FuturesMarginTransfer sits at the
previous log index) or as a liquidation precursor (when additionally the new
size and margin are zero), recording the synthetic Liquidation trade there.
Returns (position, stat, store). -/
def zeroTradeBranch (ctx : Ctx) (p : PositionModifiedParams) (account : Nat)
    (sendingAccount : Nat) (accountType : AccountType) (positionKey : Nat × Nat)
    (fundingAccrued : Int) (position : FuturesPosition) (stat : FuturesStat)
    (st : Store) : FuturesPosition × FuturesStat × Store :=
  let marginTransferEntity := st.marginTransfers (ctx.address, ctx.txHash, ctx.logIndex - 1)
  match marginTransferEntity with
  | none =>
    if p.size = 0 ∧ p.margin = 0 then
      -- liquidation precursor: force a 100 percent loss (lines 332-371)
      let newPositionPnlWithFeesPaid := (position.initialMargin + position.netTransfers) * (-1)
      let newPositionPnl := newPositionPnlWithFeesPaid + position.feesPaid - position.netFunding
      let newTradePnl := newPositionPnl - position.pnl
      let tradeEntity : FuturesTrade :=
        { timestamp := ctx.timestamp
          account := account
          abstractAccount := sendingAccount
          accountType := accountType
          margin := 0
          size := 0
          asset := position.asset
          marketKey := position.marketKey
          price := p.lastPrice
          positionId := positionKey
          positionSize := 0
          positionClosed := true
          pnl := newTradePnl
          feesPaid := p.fee
          fundingAccrued := fundingAccrued
          keeperFeesPaid := 0
          orderType := OrderTypeE.Liquidation
          trackingCode := ZERO_ADDRESS }
      let st1 := st.saveTrade (ctx.txHash, ctx.logIndex) tradeEntity
      ({ position with pnl := newPositionPnl, pnlWithFeesPaid := newPositionPnlWithFeesPaid },
       { stat with pnl := stat.pnl + newTradePnl },
       st1)
    else (position, stat, st)
  | some transfer =>
    -- margin transfer: track net transfers and deposits (lines 372-380)
    let position1 := { position with netTransfers := position.netTransfers + transfer.size }
    let position2 :=
      if 0 < transfer.size then
        { position1 with totalDeposits := position1.totalDeposits + transfer.size }
      else position1
    (position2, stat, st)

/-- Trailing stat update of handlePositionModified (lines 384-385): the
pnlWithFeesPaid recomputation precedes the fee addition. -/
def trailingStat (p : PositionModifiedParams) (stat : FuturesStat) : FuturesStat :=
  let stat1 := { stat with pnlWithFeesPaid := stat.pnl - stat.feesPaid }
  { stat1 with feesPaid := stat1.feesPaid + p.fee }

/-- Trailing position update of handlePositionModified (lines 387-393). -/
def trailingPosition (ctx : Ctx) (p : PositionModifiedParams)
    (position : FuturesPosition) : FuturesPosition :=
  let position1 :=
    { position with
      size := p.size
      margin := p.margin
      lastPrice := p.lastPrice
      feesPaid := position.feesPaid + p.fee }
  { position1 with
    pnlWithFeesPaid := position1.pnl - position1.feesPaid + position1.netFunding
    lastTxHash := ctx.txHash
    timestamp := ctx.timestamp }

/-- Final segment of handlePositionModified (lines 383-404): trailing updates
followed by the margin-account, position, stat and cumulative saves. -/
def positionModifiedFinalize (ctx : Ctx) (p : PositionModifiedParams) (account : Nat)
    (positionKey : Nat × Nat) (marginAccountKey : Nat × Nat)
    (marginAccountEntity : Option FuturesMarginAccount) (position : FuturesPosition)
    (stat : FuturesStat) (cumulative : FuturesCumulativeStat) (st : Store) : Store :=
  let stat1 := trailingStat p stat
  let position1 := trailingPosition ctx p position
  let st1 :=
    match marginAccountEntity with
    | some ma =>
      st.saveMarginAccount marginAccountKey { ma with margin := p.margin, timestamp := ctx.timestamp }
    | none => st
  ((st1.savePosition positionKey position1).saveStat account stat1).saveCumulative
    CumKey.global cumulative

/-- The stat loaded for the resolved account, or the zeroed stat created on a
first interaction (handlePositionModified lines 97 and 105-117). -/
def pmStat0 (p : PositionModifiedParams) (st : Store) : FuturesStat :=
  match st.stats (resolveAccount st p.account) with
  | some s => s
  | none => newFuturesStat (resolveAccount st p.account)

/-- The global cumulative entity, with the new-trader count applied when the
stat entity is created in this invocation (lines 98 and 116). -/
def pmCumulative0 (p : PositionModifiedParams) (st : Store) : FuturesCumulativeStat :=
  let cumulative0 := getOrCreateCumulativeEntity st
  match st.stats (resolveAccount st p.account) with
  | some _ => cumulative0
  | none => { cumulative0 with totalTraders := cumulative0.totalTraders + 1 }

/-- The position loaded at the (market, id) key, or the freshly created one
(lines 96 and 120-149). -/
def pmPosition0 (ctx : Ctx) (p : PositionModifiedParams) (st : Store) : FuturesPosition :=
  match st.positions (ctx.address, p.id) with
  | some pos => pos
  | none =>
    newFuturesPosition ctx p (st.markets ctx.address) (resolveAccount st p.account)
      p.account (resolveAccountType st p.account)

/-- The funding stage applied to the loaded (or created) entities. -/
def pmFunding (ctx : Ctx) (p : PositionModifiedParams) (st : Store) :
    Int × FuturesPosition × FuturesStat × Store :=
  applyFunding st ctx p (ctx.address, p.id) (pmPosition0 ctx p st) (pmStat0 p st)
    (resolveAccount st p.account)

/-- Funding accrual followed by the tradeSize dispatch of
handlePositionModified (lines 151-381): everything between the entity loads
and the trailing updates. Returns (position, stat, cumulative, store). -/
def pmBranch (ctx : Ctx) (p : PositionModifiedParams) (st : Store) :
    FuturesPosition × FuturesStat × FuturesCumulativeStat × Store :=
  let fr := pmFunding ctx p st
  if p.tradeSize ≠ 0 then
    tradeBranch ctx p (resolveAccount st p.account) p.account (resolveAccountType st p.account)
      (st.markets ctx.address) (ctx.address, p.id) fr.1 fr.2.1 fr.2.2.1
      (pmCumulative0 p st) fr.2.2.2
  else
    let z :=
      zeroTradeBranch ctx p (resolveAccount st p.account) p.account
        (resolveAccountType st p.account) (ctx.address, p.id) fr.1 fr.2.1 fr.2.2.1 fr.2.2.2
    (z.1, z.2.1, pmCumulative0 p st, z.2.2)

/-- handlePositionModified from perps.ts (lines 79-405): load the entities,
run the funding and tradeSize stages, then apply the trailing updates and
save. -/
def handlePositionModified (ctx : Ctx) (p : PositionModifiedParams) (st : Store) : Store :=
  positionModifiedFinalize ctx p (resolveAccount st p.account) (ctx.address, p.id)
    (p.account, ctx.address) (st.marginAccounts (p.account, ctx.address))
    (pmBranch ctx p st).1 (pmBranch ctx p st).2.1 (pmBranch ctx p st).2.2.1
    (pmBranch ctx p st).2.2.2

/-- Shared body of the PositionLiquidated handlers, parameterized by the total
fee (the V2 wrapper sums its three sub-fees into this value). -/
def positionLiquidatedCore (ctx : Ctx) (account : Nat) (id : Nat) (size : Int)
    (fee : Int) (st : Store) : Store :=
  let resolved := resolveAccount st account
  let positionKey := (ctx.address, id)
  let positionEntity := st.positions positionKey
  let tradeEntity := st.trades (ctx.txHash, ctx.logIndex - 1)
  let statEntity := st.stats resolved
  let st1 :=
    match positionEntity with
    | some pos =>
      -- position update (lines 443-453)
      let pos1 :=
        { pos with
          isLiquidated := true
          isOpen := false
          closeTimestamp := some ctx.timestamp
          feesPaid := pos.feesPaid + fee }
      let pos2 := { pos1 with pnl := pos1.pnl + fee }
      let pos3 := { pos2 with pnlWithFeesPaid := pos2.pnl - pos2.feesPaid + pos2.netFunding }
      let stA := st.savePosition positionKey pos3
      -- stat update (lines 456-462)
      let stB :=
        match statEntity with
        | some s =>
          let s1 :=
            { s with
              liquidations := s.liquidations + 1
              feesPaid := s.feesPaid + fee
              pnl := s.pnl + fee }
          let s2 := { s1 with pnlWithFeesPaid := s1.pnl - s1.feesPaid }
          stA.saveStat resolved s2
        | none => stA
      -- synthetic-trade enrichment (lines 465-471)
      match tradeEntity with
      | some t =>
        stB.saveTrade (ctx.txHash, ctx.logIndex - 1)
          { t with
            size := size * (-1)
            positionSize := 0
            feesPaid := t.feesPaid + fee
            pnl := t.pnl + fee }
      | none => stB
    | none => st
  -- global liquidation counter, incremented unconditionally (474-477)
  let cumulative := getOrCreateCumulativeEntity st1
  let st2 :=
    st1.saveCumulative CumKey.global
      { cumulative with totalLiquidations := cumulative.totalLiquidations + 1 }
  -- per-market liquidation counter (480-484)
  match positionEntity with
  | some pos =>
    match pos.asset with
    | some a =>
      let mcs := getOrCreateMarketCumulativeStats st2 (CumKey.hexOf a)
      st2.saveCumulative (CumKey.hexOf a)
        { mcs with totalLiquidations := mcs.totalLiquidations + 1 }
    | none => st2
  | none => st2

/-- handlePositionLiquidated from perps.ts (lines 427-485). -/
def handlePositionLiquidated (ctx : Ctx) (q : PositionLiquidatedParams) (st : Store) : Store :=
  positionLiquidatedCore ctx q.account q.id q.size q.fee st

/-- handlePositionLiquidatedV2 from perps.ts (lines 487-550): identical to the
V1 handler with totalFee = flaggerFee + liquidatorFee + stakersFee. -/
def handlePositionLiquidatedV2 (ctx : Ctx) (q : PositionLiquidatedV2Params) (st : Store) : Store :=
  positionLiquidatedCore ctx q.account q.id q.size
    (q.flaggerFee + q.liquidatorFee + q.stakersFee) st

/-- handleDelayedOrderRemoved from perps.ts (lines 804-884). -/
def handleDelayedOrderRemoved (ctx : Ctx) (r : DelayedOrderRemovedParams) (st : Store) : Store :=
  let sendingAccount := r.account
  let account := resolveAccount st sendingAccount
  let accountType := resolveAccountType st sendingAccount
  let statEntity := st.stats account
  match st.markets ctx.address with
  | none => st
  | some marketEntity =>
    let orderKey := (marketEntity.asset, sendingAccount, r.targetRoundId)
    match st.orders orderKey with
    | none => st
    | some futuresOrderEntity0 =>
      let smoKey := (sendingAccount, marketEntity.marketKey)
      let smartMarginOrderEntity := st.smartMarginOrders smoKey
      let futuresOrderEntity1 := { futuresOrderEntity0 with keeper := ctx.txFrom }
      let tradeKey := (ctx.txHash, ctx.logIndex - 1)
      match statEntity, st.trades tradeKey with
      | some stat, some trade0 =>
        let positionEntity := st.positions trade0.positionId
        let futuresOrderEntity2 := { futuresOrderEntity1 with status := OrderStatus.Filled }
        let trade1 :=
          { trade0 with trackingCode := r.trackingCode, orderType := futuresOrderEntity2.orderType }
        -- smart-margin order-type propagation (lines 841-846)
        let smStep : FuturesTrade × Store :=
          match smartMarginOrderEntity with
          | some smo =>
            match smo.orderType with
            | some ot =>
              if smo.recordTrade then
                ({ trade1 with orderType := ot },
                 st.saveSmartMarginOrder smoKey { smo with recordTrade := false })
              else (trade1, st)
            | none => (trade1, st)
          | none => (trade1, st)
        let trade2 := smStep.1
        let st1 := smStep.2
        -- keeper fee attribution when not self-executed (lines 849-873)
        if futuresOrderEntity2.keeper ≠ futuresOrderEntity2.account then
          let trade3 :=
            { trade2 with
              feesPaid := trade2.feesPaid + r.keeperDeposit
              keeperFeesPaid := r.keeperDeposit }
          let stat1 := { stat with feesPaid := stat.feesPaid + r.keeperDeposit }
          let st2 :=
            match positionEntity with
            | some pos =>
              st1.savePosition trade0.positionId { pos with feesPaid := pos.feesPaid + r.keeperDeposit }
            | none => st1
          let st3 :=
            if r.trackingCode = KWENTA_CODE then
              updateAggregateStatEntities accountType (aggAssetOf marketEntity.marketKey)
                (aggAssetOf marketEntity.asset) ctx.timestamp 0 0 0 trade3.feesPaid st2
            else st2
          (((st3.saveStat account stat1).saveTrade tradeKey trade3).saveOrder orderKey
            futuresOrderEntity2)
        else
          ((st1.saveTrade tradeKey trade2).saveOrder orderKey futuresOrderEntity2)
      | _, _ =>
        -- no trade (or no stat): the order was cancelled (lines 876-879)
        st.saveOrder orderKey { futuresOrderEntity1 with status := OrderStatus.Cancelled }

/-- A store with no entities, used for concrete runs of the handlers. -/
def emptyStore : Store :=
  { smartMarginAccounts := fun _ => none
    markets := fun _ => none
    positions := fun _ => none
    stats := fun _ => none
    trades := fun _ => none
    marginTransfers := fun _ => none
    marginAccounts := fun _ => none
    fundingRateUpdates := fun _ => none
    fundingPayments := fun _ => none
    cumulativeStats := fun _ => none
    aggregateStats := fun _ => none
    orders := fun _ => none
    smartMarginOrders := fun _ => none }

/-! ### Derived definitions used by the verification statements -/

/-- The position-level accounting identity of the data model. -/
def posPnlIdent (o : Option FuturesPosition) : Prop :=
  match o with
  | none => True
  | some q => q.pnlWithFeesPaid = q.pnl - q.feesPaid + q.netFunding

/-- The position update performed by positionLiquidatedCore on a found
position: liquidation flags, closing timestamp, fee accounting and the
pnlWithFeesPaid recomputation (perps.ts lines 443-453). -/
def liquidatedPosition (ctx : Ctx) (fee : Int) (pos : FuturesPosition) : FuturesPosition :=
  { pos with
    isLiquidated := true
    isOpen := false
    closeTimestamp := some ctx.timestamp
    feesPaid := pos.feesPaid + fee
    pnl := pos.pnl + fee
    pnlWithFeesPaid := pos.pnl + fee - (pos.feesPaid + fee) + pos.netFunding }

/-- Event context of the C2 counterexample run. -/
def c2ctx : Ctx := { address := 1, txHash := 100, logIndex := 1, timestamp := 1000, txFrom := 1 }

/-- PositionModified parameters of the C2 counterexample run: a zero-trade
event with a non-zero fee. -/
def c2p : PositionModifiedParams :=
  { account := 1, id := 1, size := 0, margin := 0, lastPrice := 100, tradeSize := 0
    fee := 5, fundingIndex := 0 }

/-- Event context of the C10 witness run. -/
def c10ctx : Ctx := { address := 1, txHash := 300, logIndex := 2, timestamp := 2000, txFrom := 7 }

/-- PositionModified parameters of the C10 witness run. -/
def c10p : PositionModifiedParams :=
  { account := 9, id := 1, size := 10, margin := 500, lastPrice := 100, tradeSize := 10
    fee := 2, fundingIndex := 3 }

/-- Event context of the C5 witness run. -/
def c5ctx : Ctx := { address := 2, txHash := 400, logIndex := 5, timestamp := 3000, txFrom := 8 }

/-- PositionModified parameters of the C5 witness run: a zero-trade,
zero-size, zero-margin event right after a margin transfer. -/
def c5p : PositionModifiedParams :=
  { account := 3, id := 4, size := 0, margin := 0, lastPrice := 50, tradeSize := 0
    fee := 0, fundingIndex := 0 }

/-- Store of the C5 witness run: a position and a margin transfer at the
adjacent log index. -/
def c5store : Store :=
  { emptyStore with
    positions :=
      upd emptyStore.positions (2, 4)
        { market := 2, asset := none, marketKey := none, account := 3, abstractAccount := 3
          accountType := AccountType.isolatedMargin, isLiquidated := false, isOpen := true
          size := 0, timestamp := 0, openTimestamp := 0, closeTimestamp := none
          avgEntryPrice := 50, entryPrice := 50, exitPrice := none, lastPrice := 50
          margin := 20, initialMargin := 20, pnl := 0, feesPaid := 0, netFunding := 0
          pnlWithFeesPaid := 0, netTransfers := 0, totalDeposits := 0, totalVolume := 0
          trades := 0, fundingIndex := 0, lastTxHash := 0 }
    marginTransfers :=
      upd emptyStore.marginTransfers (2, 400, 4)
        { account := 3, market := 2, size := 500, timestamp := 2999 } }

/-- Event context of the C7 witness run. -/
def c7ctx : Ctx := { address := 1, txHash := 500, logIndex := 3, timestamp := 4000, txFrom := 4 }

/-- PositionModified parameters of the C7 witness run. -/
def c7p : PositionModifiedParams :=
  { account := 4, id := 1, size := 5, margin := 7, lastPrice := 60, tradeSize := 0
    fee := 2, fundingIndex := 2 }

/-- Stored position of the C7 witness run, holding funding index 1 and size 3. -/
def c7pos : FuturesPosition :=
  { market := 1, asset := none, marketKey := none, account := 4, abstractAccount := 4
    accountType := AccountType.isolatedMargin, isLiquidated := false, isOpen := true
    size := 3, timestamp := 0, openTimestamp := 0, closeTimestamp := none
    avgEntryPrice := 60, entryPrice := 60, exitPrice := none, lastPrice := 60
    margin := 7, initialMargin := 7, pnl := 0, feesPaid := 0, netFunding := 0
    pnlWithFeesPaid := 0, netTransfers := 0, totalDeposits := 0, totalVolume := 0
    trades := 0, fundingIndex := 1, lastTxHash := 0 }

/-- Stored stat of the C7 witness run. -/
def c7stat : FuturesStat :=
  { account := 4, feesPaid := 10, pnl := 0, pnlWithFeesPaid := 0, liquidations := 0
    totalTrades := 0, totalVolume := 0, smartMarginVolume := 0 }

/-- Past funding checkpoint of the C7 witness run. -/
def c7past : FundingRateUpdate := { timestamp := 0, funding := 0, fundingRate := 0 }

/-- Current funding checkpoint of the C7 witness run: cumulative funding of two
units per unit of size. -/
def c7cur : FundingRateUpdate := { timestamp := 0, funding := 2 * ETHER, fundingRate := 0 }

/-- Store of the C7 witness run. -/
def c7store : Store :=
  { emptyStore with
    positions := upd emptyStore.positions (1, 1) c7pos
    stats := upd emptyStore.stats 4 c7stat
    fundingRateUpdates :=
      upd (upd emptyStore.fundingRateUpdates (1, 1) c7past) (1, 2) c7cur }

/-- Event context of the C4 part-one witness run. -/
def c4ctx : Ctx := { address := 3, txHash := 700, logIndex := 2, timestamp := 5000, txFrom := 5 }

/-- PositionModified parameters of the C4 part-one witness run: a full close at
price 3 ETHER. -/
def c4p : PositionModifiedParams :=
  { account := 5, id := 6, size := 0, margin := 0, lastPrice := 3 * ETHER, tradeSize := -2
    fee := 1, fundingIndex := 0 }

/-- Stored position of the C4 part-one witness run: size 2 at average entry
price 1 ETHER with realized pnl 7. -/
def c4pos : FuturesPosition :=
  { market := 3, asset := none, marketKey := none, account := 5, abstractAccount := 5
    accountType := AccountType.isolatedMargin, isLiquidated := false, isOpen := true
    size := 2, timestamp := 0, openTimestamp := 0, closeTimestamp := none
    avgEntryPrice := ETHER, entryPrice := ETHER, exitPrice := none, lastPrice := ETHER
    margin := 100, initialMargin := 100, pnl := 7, feesPaid := 0, netFunding := 0
    pnlWithFeesPaid := 0, netTransfers := 0, totalDeposits := 0, totalVolume := 0
    trades := 0, fundingIndex := 0, lastTxHash := 0 }

/-- Stored stat of the C4 part-one witness run. -/
def c4stat : FuturesStat :=
  { account := 5, feesPaid := 0, pnl := 1, pnlWithFeesPaid := 0, liquidations := 0
    totalTrades := 0, totalVolume := 0, smartMarginVolume := 0 }

/-- Store of the C4 part-one witness run. -/
def c4store : Store :=
  { emptyStore with
    positions := upd emptyStore.positions (3, 6) c4pos
    stats := upd emptyStore.stats 5 c4stat }

/-- Event context of the opening event in the C4 round-trip witness run. -/
def c4ctx1 : Ctx := { address := 1, txHash := 600, logIndex := 1, timestamp := 10, txFrom := 5 }

/-- Opening event of the C4 round-trip witness run: size 4 at price 2 ETHER. -/
def c4p1 : PositionModifiedParams :=
  { account := 5, id := 2, size := 4, margin := 100, lastPrice := 2 * ETHER, tradeSize := 4
    fee := 1, fundingIndex := 0 }

/-- Event context of the closing event in the C4 round-trip witness run. -/
def c4ctx2 : Ctx := { address := 1, txHash := 601, logIndex := 1, timestamp := 20, txFrom := 5 }

/-- Closing event of the C4 round-trip witness run: full close at price
5 ETHER, so the expected round-trip PnL is (5-2)*4 = 12 units. -/
def c4p2 : PositionModifiedParams :=
  { account := 5, id := 2, size := 0, margin := 0, lastPrice := 5 * ETHER, tradeSize := -4
    fee := 1, fundingIndex := 0 }

/-- Stored position of the C3 runs: size 1 at entry price 10. -/
def c3pos : FuturesPosition :=
  { market := 1, asset := none, marketKey := none, account := 6, abstractAccount := 6
    accountType := AccountType.isolatedMargin, isLiquidated := false, isOpen := true
    size := 1, timestamp := 0, openTimestamp := 0, closeTimestamp := none
    avgEntryPrice := 10, entryPrice := 10, exitPrice := none, lastPrice := 10
    margin := 100, initialMargin := 100, pnl := 0, feesPaid := 0, netFunding := 0
    pnlWithFeesPaid := 0, netTransfers := 0, totalDeposits := 0, totalVolume := 0
    trades := 0, fundingIndex := 0, lastTxHash := 0 }

/-- Store of the C3 runs. -/
def c3store : Store := { emptyStore with positions := upd emptyStore.positions (1, 1) c3pos }

/-- Event context of the first C3 counterexample increment. -/
def c3ctx1 : Ctx := { address := 1, txHash := 800, logIndex := 1, timestamp := 30, txFrom := 6 }

/-- First C3 counterexample increment: +1 unit at price 13. -/
def c3p1 : PositionModifiedParams :=
  { account := 6, id := 1, size := 2, margin := 100, lastPrice := 13, tradeSize := 1
    fee := 0, fundingIndex := 0 }

/-- Event context of the second C3 counterexample increment. -/
def c3ctx2 : Ctx := { address := 1, txHash := 801, logIndex := 1, timestamp := 40, txFrom := 6 }

/-- Second C3 counterexample increment: +1 unit at price 13 again. -/
def c3p2 : PositionModifiedParams :=
  { account := 6, id := 1, size := 3, margin := 100, lastPrice := 13, tradeSize := 1
    fee := 0, fundingIndex := 0 }

/-- The same total increase applied in a single event: +2 units at price 13. -/
def c3p3 : PositionModifiedParams :=
  { account := 6, id := 1, size := 3, margin := 100, lastPrice := 13, tradeSize := 2
    fee := 0, fundingIndex := 0 }

/-- First C3 witness increment: +1 unit at price 12, keeping the intermediate
division exact ((1*10 + 1*12) / 2 = 11). -/
def c3wp1 : PositionModifiedParams :=
  { account := 6, id := 1, size := 2, margin := 100, lastPrice := 12, tradeSize := 1
    fee := 0, fundingIndex := 0 }

/-- Second C3 witness increment: +1 unit at price 14. -/
def c3wp2 : PositionModifiedParams :=
  { account := 6, id := 1, size := 3, margin := 100, lastPrice := 14, tradeSize := 1
    fee := 0, fundingIndex := 0 }

/-- Event context of the C6 runs, first event. -/
def c6ctx1 : Ctx := { address := 1, txHash := 900, logIndex := 2, timestamp := 50, txFrom := 6 }

/-- Event context of the C6 runs, second event (the PositionLiquidated). -/
def c6ctx2 : Ctx := { address := 1, txHash := 900, logIndex := 3, timestamp := 50, txFrom := 6 }

/-- Stored position of the C6 runs: initial margin 100. -/
def c6pos : FuturesPosition :=
  { market := 1, asset := none, marketKey := none, account := 6, abstractAccount := 6
    accountType := AccountType.isolatedMargin, isLiquidated := false, isOpen := true
    size := 2, timestamp := 0, openTimestamp := 0, closeTimestamp := none
    avgEntryPrice := 10, entryPrice := 10, exitPrice := none, lastPrice := 10
    margin := 100, initialMargin := 100, pnl := 0, feesPaid := 0, netFunding := 0
    pnlWithFeesPaid := 0, netTransfers := 0, totalDeposits := 0, totalVolume := 0
    trades := 0, fundingIndex := 0, lastTxHash := 0 }

/-- Store of the C6 runs. -/
def c6store : Store := { emptyStore with positions := upd emptyStore.positions (1, 1) c6pos }

/-- Liquidation-precursor PositionModified of the C6 counterexample, carrying
a non-zero fee of 5. -/
def c6p1 : PositionModifiedParams :=
  { account := 6, id := 1, size := 0, margin := 0, lastPrice := 9, tradeSize := 0
    fee := 5, fundingIndex := 0 }

/-- Liquidation-precursor PositionModified of the C6 witness, with zero fee. -/
def c6wp1 : PositionModifiedParams :=
  { account := 6, id := 1, size := 0, margin := 0, lastPrice := 9, tradeSize := 0
    fee := 0, fundingIndex := 0 }

/-- PositionLiquidated event of the C6 runs, with fee 7. -/
def c6q : PositionLiquidatedParams := { account := 6, id := 1, size := 2, fee := 7 }

/-- Event context of the C8 runs. -/
def c8ctx : Ctx := { address := 1, txHash := 1000, logIndex := 4, timestamp := 60, txFrom := 9 }

/-- PositionLiquidated parameters of the C8 runs, fee 3. -/
def c8q : PositionLiquidatedParams := { account := 11, id := 1, size := 2, fee := 3 }

/-- V2 PositionLiquidated parameters of the C8 runs, sub-fees summing to 3. -/
def c8qv2 : PositionLiquidatedV2Params :=
  { account := 11, id := 1, size := 2, flaggerFee := 1, liquidatorFee := 1, stakersFee := 1 }

/-- Stored position of the C8 witness run, with a resolvable market asset. -/
def c8pos : FuturesPosition :=
  { market := 1, asset := some 3, marketKey := some 3, account := 11, abstractAccount := 11
    accountType := AccountType.isolatedMargin, isLiquidated := false, isOpen := true
    size := 2, timestamp := 0, openTimestamp := 0, closeTimestamp := none
    avgEntryPrice := 10, entryPrice := 10, exitPrice := none, lastPrice := 10
    margin := 100, initialMargin := 100, pnl := 2, feesPaid := 1, netFunding := 0
    pnlWithFeesPaid := 0, netTransfers := 0, totalDeposits := 0, totalVolume := 0
    trades := 0, fundingIndex := 0, lastTxHash := 0 }

/-- Stored stat of the C8 runs. -/
def c8stat : FuturesStat :=
  { account := 11, feesPaid := 1, pnl := 2, pnlWithFeesPaid := 0, liquidations := 0
    totalTrades := 0, totalVolume := 0, smartMarginVolume := 0 }

/-- Store of the C8 witness run: position and stat both present. -/
def c8store : Store :=
  { emptyStore with
    positions := upd emptyStore.positions (1, 1) c8pos
    stats := upd emptyStore.stats 11 c8stat }

/-- Store of the C8 counterexample run: the stat exists but no position does. -/
def c8nstore : Store := { emptyStore with stats := upd emptyStore.stats 11 c8stat }

/-- Event context of the C9 runs. -/
def c9ctx : Ctx := { address := 2, txHash := 1100, logIndex := 5, timestamp := 70, txFrom := 8 }

/-- DelayedOrderRemoved parameters of the C9 runs. -/
def c9r : DelayedOrderRemovedParams :=
  { account := 12, targetRoundId := 9, keeperDeposit := 2, trackingCode := 0 }

/-- Market entity of the C9 runs. -/
def c9market : FuturesMarket := { asset := some 5, marketKey := some 6 }

/-- Pending delayed order of the C9 runs. -/
def c9order : FuturesOrder :=
  { size := 1, marketKey := some 6, account := 12, abstractAccount := 12, targetPrice := 0
    marginDelta := 0, timestamp := 0, txnHash := 0, orderId := 9
    orderType := OrderTypeE.Delayed, status := OrderStatus.Pending, keeper := 0 }

/-- Trade at the adjacent log index in the C9 runs. -/
def c9trade : FuturesTrade :=
  { timestamp := 70, account := 12, abstractAccount := 12
    accountType := AccountType.isolatedMargin, margin := 0, size := 1, asset := some 5
    marketKey := some 6, price := 10, positionId := (2, 1), positionSize := 1
    positionClosed := false, pnl := 0, feesPaid := 0, fundingAccrued := 0
    keeperFeesPaid := 0, orderType := OrderTypeE.Market, trackingCode := 0 }

/-- Store of the C9 counterexample run: market, pending order and adjacent
trade all present, but no stat entity. -/
def c9store : Store :=
  { emptyStore with
    markets := upd emptyStore.markets 2 c9market
    orders := upd emptyStore.orders (some 5, 12, 9) c9order
    trades := upd emptyStore.trades (1100, 4) c9trade }

/-- Store of the C9 witness run: the counterexample store plus the stat. -/
def c9wstore : Store :=
  { c9store with
    stats :=
      upd c9store.stats 12
        { account := 12, feesPaid := 0, pnl := 0, pnlWithFeesPaid := 0, liquidations := 0
          totalTrades := 0, totalVolume := 0, smartMarginVolume := 0 } }

/-! ### Structural lemmas about handlePositionModified -/

/-- The position saved by the final segment is the trailing-updated one. -/
lemma positionModifiedFinalize_positions (ctx : Ctx) (p : PositionModifiedParams)
    (account : Nat) (positionKey marginAccountKey : Nat × Nat)
    (marginAccountEntity : Option FuturesMarginAccount) (position : FuturesPosition)
    (stat : FuturesStat) (cumulative : FuturesCumulativeStat) (st : Store) :
    (positionModifiedFinalize ctx p account positionKey marginAccountKey marginAccountEntity
        position stat cumulative st).positions positionKey =
      some (trailingPosition ctx p position) := by
  cases marginAccountEntity <;>
    simp [positionModifiedFinalize, Store.savePosition, Store.saveStat, Store.saveCumulative,
      Store.saveMarginAccount, upd]

/-- The stat saved by the final segment is the trailing-updated one. -/
lemma positionModifiedFinalize_stats (ctx : Ctx) (p : PositionModifiedParams)
    (account : Nat) (positionKey marginAccountKey : Nat × Nat)
    (marginAccountEntity : Option FuturesMarginAccount) (position : FuturesPosition)
    (stat : FuturesStat) (cumulative : FuturesCumulativeStat) (st : Store) :
    (positionModifiedFinalize ctx p account positionKey marginAccountKey marginAccountEntity
        position stat cumulative st).stats account =
      some (trailingStat p stat) := by
  cases marginAccountEntity <;>
    simp [positionModifiedFinalize, Store.savePosition, Store.saveStat, Store.saveCumulative,
      Store.saveMarginAccount, upd]

/-- handlePositionModified always saves the trailing-updated branch position at
the key built from the emitting market and the event id. -/
lemma handlePositionModified_positions (ctx : Ctx) (p : PositionModifiedParams) (st : Store) :
    (handlePositionModified ctx p st).positions (ctx.address, p.id) =
      some (trailingPosition ctx p (pmBranch ctx p st).1) := by
  unfold handlePositionModified
  exact positionModifiedFinalize_positions ..

/-- handlePositionModified always saves the trailing-updated branch stat at the
resolved account key. -/
lemma handlePositionModified_stats (ctx : Ctx) (p : PositionModifiedParams) (st : Store) :
    (handlePositionModified ctx p st).stats (resolveAccount st p.account) =
      some (trailingStat p (pmBranch ctx p st).2.1) := by
  unfold handlePositionModified
  exact positionModifiedFinalize_stats ..

/-! ### Characterization of the funding stage -/

lemma applyFunding_eq_same (st : Store) (ctx : Ctx) (p : PositionModifiedParams)
    (k : Nat × Nat) (position : FuturesPosition) (stat : FuturesStat) (account : Nat)
    (heq : position.fundingIndex = p.fundingIndex) :
    applyFunding st ctx p k position stat account = (0, position, stat, st) := by
  simp [applyFunding, heq]

lemma applyFunding_eq_missing (st : Store) (ctx : Ctx) (p : PositionModifiedParams)
    (k : Nat × Nat) (position : FuturesPosition) (stat : FuturesStat) (account : Nat)
    (hne : position.fundingIndex ≠ p.fundingIndex)
    (hmiss : st.fundingRateUpdates (ctx.address, position.fundingIndex) = none ∨
      st.fundingRateUpdates (ctx.address, p.fundingIndex) = none) :
    applyFunding st ctx p k position stat account = (0, position, stat, st) := by
  unfold applyFunding
  rw [if_pos hne]
  rcases hmiss with h | h
  · cases hc : st.fundingRateUpdates (ctx.address, p.fundingIndex) <;> rw [h]
  · cases hp2 : st.fundingRateUpdates (ctx.address, position.fundingIndex) <;> rw [h]

lemma applyFunding_eq_both (st : Store) (ctx : Ctx) (p : PositionModifiedParams)
    (k : Nat × Nat) (position : FuturesPosition) (stat : FuturesStat) (account : Nat)
    (pe ce : FundingRateUpdate)
    (hne : position.fundingIndex ≠ p.fundingIndex)
    (hpe : st.fundingRateUpdates (ctx.address, position.fundingIndex) = some pe)
    (hce : st.fundingRateUpdates (ctx.address, p.fundingIndex) = some ce) :
    applyFunding st ctx p k position stat account =
      (Int.tdiv ((ce.funding - pe.funding) * position.size) ETHER,
       { position with
          netFunding :=
            position.netFunding + Int.tdiv ((ce.funding - pe.funding) * position.size) ETHER
          fundingIndex := p.fundingIndex },
       { stat with
          feesPaid :=
            stat.feesPaid - Int.tdiv ((ce.funding - pe.funding) * position.size) ETHER },
       if 0 < ((Int.tdiv ((ce.funding - pe.funding) * position.size) ETHER).natAbs : Int) then
         st.saveFundingPayment (k, ctx.txHash, ctx.logIndex)
           { timestamp := ctx.timestamp, account := account, positionId := k
             marketKey := position.marketKey, asset := position.asset
             amount := Int.tdiv ((ce.funding - pe.funding) * position.size) ETHER }
       else st) := by
  unfold applyFunding
  rw [if_pos hne, hpe, hce]

/-- The funding stage only ever touches netFunding and fundingIndex on the
position. -/
lemma applyFunding_position_shape (st : Store) (ctx : Ctx) (p : PositionModifiedParams)
    (k : Nat × Nat) (position : FuturesPosition) (stat : FuturesStat) (account : Nat) :
    ∃ nf fi, (applyFunding st ctx p k position stat account).2.1 =
      { position with netFunding := nf, fundingIndex := fi } := by
  simp only [applyFunding]
  repeat' split
  all_goals exact ⟨_, _, rfl⟩

/-- The funding stage only ever touches feesPaid on the stat. -/
lemma applyFunding_stat_shape (st : Store) (ctx : Ctx) (p : PositionModifiedParams)
    (k : Nat × Nat) (position : FuturesPosition) (stat : FuturesStat) (account : Nat) :
    ∃ fp, (applyFunding st ctx p k position stat account).2.2.1 =
      { stat with feesPaid := fp } := by
  simp only [applyFunding]
  repeat' split
  all_goals exact ⟨_, rfl⟩

/-- The funding stage only ever writes the fundingPayments map of the store. -/
lemma applyFunding_store_shape (st : Store) (ctx : Ctx) (p : PositionModifiedParams)
    (k : Nat × Nat) (position : FuturesPosition) (stat : FuturesStat) (account : Nat) :
    ∃ m, (applyFunding st ctx p k position stat account).2.2.2 =
      { st with fundingPayments := m } := by
  simp only [applyFunding]
  repeat' split
  all_goals exact ⟨_, rfl⟩

/-! ### Frame lemmas for the aggregate rollup -/

/-- updateAggregateStatEntities only ever writes the aggregateStats map. -/
lemma updateAggregateStatEntities_store_shape (accountType : AccountType)
    (marketKey asset : AggAsset) (timestamp trades volume feesSynthetix feesKwenta : Int)
    (st : Store) :
    ∃ m, updateAggregateStatEntities accountType marketKey asset timestamp trades volume
        feesSynthetix feesKwenta st = { st with aggregateStats := m } :=
  ⟨_, rfl⟩

/-! ### Characterization of the non-zero tradeSize branch -/

/-- In every PnL case, the position component of the trade branch changes only
pnl, entry prices, open and exit bookkeeping, trades and totalVolume. -/
lemma tradeBranch_position_frame (ctx : Ctx) (p : PositionModifiedParams) (account : Nat)
    (sendingAccount : Nat) (accountType : AccountType) (marketEntity : Option FuturesMarket)
    (positionKey : Nat × Nat) (fundingAccrued : Int) (position : FuturesPosition)
    (stat : FuturesStat) (cumulative : FuturesCumulativeStat) (st : Store) :
    let r := tradeBranch ctx p account sendingAccount accountType marketEntity positionKey
      fundingAccrued position stat cumulative st
    r.1.netFunding = position.netFunding ∧ r.1.fundingIndex = position.fundingIndex ∧
    r.1.feesPaid = position.feesPaid ∧ r.1.netTransfers = position.netTransfers ∧
    r.1.totalDeposits = position.totalDeposits ∧ r.1.initialMargin = position.initialMargin := by
  simp only [tradeBranch]
  repeat' split
  all_goals simp

/-- In every PnL case, the stat component of the trade branch changes only pnl,
totalTrades, totalVolume and smartMarginVolume. -/
lemma tradeBranch_stat_frame (ctx : Ctx) (p : PositionModifiedParams) (account : Nat)
    (sendingAccount : Nat) (accountType : AccountType) (marketEntity : Option FuturesMarket)
    (positionKey : Nat × Nat) (fundingAccrued : Int) (position : FuturesPosition)
    (stat : FuturesStat) (cumulative : FuturesCumulativeStat) (st : Store) :
    (tradeBranch ctx p account sendingAccount accountType marketEntity positionKey
      fundingAccrued position stat cumulative st).2.1.feesPaid = stat.feesPaid := by
  simp only [tradeBranch]
  repeat' split
  all_goals simp

set_option maxHeartbeats 2000000 in
/-- The trade branch never writes positions, stats or fundingPayments in the
store. -/
lemma tradeBranch_store_frame (ctx : Ctx) (p : PositionModifiedParams) (account : Nat)
    (sendingAccount : Nat) (accountType : AccountType) (marketEntity : Option FuturesMarket)
    (positionKey : Nat × Nat) (fundingAccrued : Int) (position : FuturesPosition)
    (stat : FuturesStat) (cumulative : FuturesCumulativeStat) (st : Store) :
    (tradeBranch ctx p account sendingAccount accountType marketEntity positionKey
      fundingAccrued position stat cumulative st).2.2.2.positions = st.positions ∧
    (tradeBranch ctx p account sendingAccount accountType marketEntity positionKey
      fundingAccrued position stat cumulative st).2.2.2.stats = st.stats ∧
    (tradeBranch ctx p account sendingAccount accountType marketEntity positionKey
      fundingAccrued position stat cumulative st).2.2.2.fundingPayments = st.fundingPayments := by
  rcases marketEntity with _ | ⟨massetv, mkeyv⟩
  · exact ⟨rfl, rfl, rfl⟩
  · rcases massetv with _ | a
    · exact ⟨rfl, rfl, rfl⟩
    · exact ⟨rfl, rfl, rfl⟩

/-- The aggregate rollup leaves the trades map untouched. -/
lemma updateAggregateStatEntities_trades (accountType : AccountType)
    (marketKey asset : AggAsset) (timestamp trades volume feesSynthetix feesKwenta : Int)
    (st : Store) :
    (updateAggregateStatEntities accountType marketKey asset timestamp trades volume
      feesSynthetix feesKwenta st).trades = st.trades := rfl

/-- The aggregate rollup leaves the orders map untouched. -/
lemma updateAggregateStatEntities_orders (accountType : AccountType)
    (marketKey asset : AggAsset) (timestamp trades volume feesSynthetix feesKwenta : Int)
    (st : Store) :
    (updateAggregateStatEntities accountType marketKey asset timestamp trades volume
      feesSynthetix feesKwenta st).orders = st.orders := rfl

/-- Closing case of the trade branch (perps.ts lines 227-238): realized PnL on
the whole position, closed flags, and the trade entity carrying the PnL. -/
lemma tradeBranch_close_fields (ctx : Ctx) (p : PositionModifiedParams) (account : Nat)
    (sendingAccount : Nat) (accountType : AccountType) (marketEntity : Option FuturesMarket)
    (positionKey : Nat × Nat) (fundingAccrued : Int) (position : FuturesPosition)
    (stat : FuturesStat) (cumulative : FuturesCumulativeStat) (st : Store)
    (hsz : p.size = 0) :
    let r := tradeBranch ctx p account sendingAccount accountType marketEntity positionKey
      fundingAccrued position stat cumulative st
    r.1.pnl = position.pnl + Int.tdiv ((p.lastPrice - position.avgEntryPrice) * position.size) ETHER ∧
    r.1.isOpen = false ∧
    r.1.exitPrice = some p.lastPrice ∧
    r.1.closeTimestamp = some ctx.timestamp ∧
    r.2.1.pnl = stat.pnl + Int.tdiv ((p.lastPrice - position.avgEntryPrice) * position.size) ETHER ∧
    (r.2.2.2.trades (ctx.txHash, ctx.logIndex)).map FuturesTrade.pnl =
      some (Int.tdiv ((p.lastPrice - position.avgEntryPrice) * position.size) ETHER) := by
  rcases marketEntity with _ | ⟨ma, mk⟩
  · simp [tradeBranch, hsz, Store.saveTrade, upd]
  · rcases ma with _ | a
    · simp [tradeBranch, hsz, Store.saveTrade, upd]
    · simp [tradeBranch, hsz, Store.saveTrade, Store.saveCumulative, upd,
        updateAggregateStatEntities_trades]

/-- Size-reduction case of the trade branch (perps.ts lines 268-280): PnL on
the traded amount, entry prices unchanged. -/
lemma tradeBranch_reduce_fields (ctx : Ctx) (p : PositionModifiedParams) (account : Nat)
    (sendingAccount : Nat) (accountType : AccountType) (marketEntity : Option FuturesMarket)
    (positionKey : Nat × Nat) (fundingAccrued : Int) (position : FuturesPosition)
    (stat : FuturesStat) (cumulative : FuturesCumulativeStat) (st : Store)
    (hsz : ¬p.size = 0)
    (hflip : ¬((position.size < 0 ∧ 0 < p.size) ∨ (0 < position.size ∧ p.size < 0)))
    (hinc : ¬(position.size.natAbs < p.size.natAbs)) :
    let r := tradeBranch ctx p account sendingAccount accountType marketEntity positionKey
      fundingAccrued position stat cumulative st
    r.1.pnl = position.pnl +
      Int.tdiv ((p.lastPrice - position.avgEntryPrice) * (p.tradeSize.natAbs : Int) *
        (if 0 < p.size then 1 else -1)) ETHER ∧
    r.1.avgEntryPrice = position.avgEntryPrice ∧
    r.1.entryPrice = position.entryPrice ∧
    r.1.isOpen = position.isOpen := by
  rcases marketEntity with _ | ⟨ma, mk⟩
  · simp [tradeBranch, hsz, hflip, hinc]
  · rcases ma with _ | a
    · simp [tradeBranch, hsz, hflip, hinc]
    · simp [tradeBranch, hsz, hflip, hinc]

/-- Size-increase case of the trade branch (perps.ts lines 258-266): the
weighted average entry price is recomputed on both entry price fields from the
stored entryPrice, and no PnL is applied. -/
lemma tradeBranch_increase_fields (ctx : Ctx) (p : PositionModifiedParams) (account : Nat)
    (sendingAccount : Nat) (accountType : AccountType) (marketEntity : Option FuturesMarket)
    (positionKey : Nat × Nat) (fundingAccrued : Int) (position : FuturesPosition)
    (stat : FuturesStat) (cumulative : FuturesCumulativeStat) (st : Store)
    (hsz : ¬p.size = 0)
    (hflip : ¬((position.size < 0 ∧ 0 < p.size) ∨ (0 < position.size ∧ p.size < 0)))
    (hinc : position.size.natAbs < p.size.natAbs) :
    let r := tradeBranch ctx p account sendingAccount accountType marketEntity positionKey
      fundingAccrued position stat cumulative st
    r.1.avgEntryPrice =
      Int.tdiv ((position.size.natAbs : Int) * position.entryPrice +
        (p.tradeSize.natAbs : Int) * p.lastPrice) (p.size.natAbs : Int) ∧
    r.1.entryPrice =
      Int.tdiv ((position.size.natAbs : Int) * position.entryPrice +
        (p.tradeSize.natAbs : Int) * p.lastPrice) (p.size.natAbs : Int) ∧
    r.1.pnl = position.pnl ∧
    r.2.1.pnl = stat.pnl := by
  rcases marketEntity with _ | ⟨ma, mk⟩
  · simp [tradeBranch, hsz, hflip, hinc]
  · rcases ma with _ | a
    · simp [tradeBranch, hsz, hflip, hinc]
    · simp [tradeBranch, hsz, hflip, hinc]

/-! ### Characterization of the zero tradeSize branch -/

lemma zeroTradeBranch_eq_transfer (ctx : Ctx) (p : PositionModifiedParams) (account : Nat)
    (sendingAccount : Nat) (accountType : AccountType) (positionKey : Nat × Nat)
    (fundingAccrued : Int) (position : FuturesPosition) (stat : FuturesStat) (st : Store)
    (t : FuturesMarginTransfer)
    (ht : st.marginTransfers (ctx.address, ctx.txHash, ctx.logIndex - 1) = some t) :
    zeroTradeBranch ctx p account sendingAccount accountType positionKey fundingAccrued
        position stat st =
      ({ position with
          netTransfers := position.netTransfers + t.size
          totalDeposits := position.totalDeposits + (if 0 < t.size then t.size else 0) },
       stat, st) := by
  by_cases hts : 0 < t.size <;> simp [zeroTradeBranch, ht, hts]

lemma zeroTradeBranch_eq_noop (ctx : Ctx) (p : PositionModifiedParams) (account : Nat)
    (sendingAccount : Nat) (accountType : AccountType) (positionKey : Nat × Nat)
    (fundingAccrued : Int) (position : FuturesPosition) (stat : FuturesStat) (st : Store)
    (hmt : st.marginTransfers (ctx.address, ctx.txHash, ctx.logIndex - 1) = none)
    (hnz : ¬(p.size = 0 ∧ p.margin = 0)) :
    zeroTradeBranch ctx p account sendingAccount accountType positionKey fundingAccrued
        position stat st = (position, stat, st) := by
  simp [zeroTradeBranch, hmt, hnz]

/-- Position component of the liquidation-precursor case. -/
lemma zeroTradeBranch_liq_position (ctx : Ctx) (p : PositionModifiedParams) (account : Nat)
    (sendingAccount : Nat) (accountType : AccountType) (positionKey : Nat × Nat)
    (fundingAccrued : Int) (position : FuturesPosition) (stat : FuturesStat) (st : Store)
    (hmt : st.marginTransfers (ctx.address, ctx.txHash, ctx.logIndex - 1) = none)
    (hs : p.size = 0) (hm : p.margin = 0) :
    (zeroTradeBranch ctx p account sendingAccount accountType positionKey fundingAccrued
        position stat st).1 =
      { position with
          pnl := (position.initialMargin + position.netTransfers) * (-1) + position.feesPaid -
            position.netFunding
          pnlWithFeesPaid := (position.initialMargin + position.netTransfers) * (-1) } := by
  simp [zeroTradeBranch, hmt, hs, hm]

/-- The zero branch never changes the entry prices, netFunding, fundingIndex,
feesPaid or initialMargin of the position. -/
lemma zeroTradeBranch_position_frame (ctx : Ctx) (p : PositionModifiedParams) (account : Nat)
    (sendingAccount : Nat) (accountType : AccountType) (positionKey : Nat × Nat)
    (fundingAccrued : Int) (position : FuturesPosition) (stat : FuturesStat) (st : Store) :
    let r := zeroTradeBranch ctx p account sendingAccount accountType positionKey
      fundingAccrued position stat st
    r.1.entryPrice = position.entryPrice ∧ r.1.avgEntryPrice = position.avgEntryPrice ∧
    r.1.netFunding = position.netFunding ∧ r.1.fundingIndex = position.fundingIndex ∧
    r.1.feesPaid = position.feesPaid ∧ r.1.initialMargin = position.initialMargin := by
  simp only [zeroTradeBranch]
  repeat' split
  all_goals simp

/-- The zero branch never changes the stat feesPaid. -/
lemma zeroTradeBranch_stat_frame (ctx : Ctx) (p : PositionModifiedParams) (account : Nat)
    (sendingAccount : Nat) (accountType : AccountType) (positionKey : Nat × Nat)
    (fundingAccrued : Int) (position : FuturesPosition) (stat : FuturesStat) (st : Store) :
    (zeroTradeBranch ctx p account sendingAccount accountType positionKey fundingAccrued
      position stat st).2.1.feesPaid = stat.feesPaid := by
  simp only [zeroTradeBranch]
  repeat' split
  all_goals simp

/-- The zero branch only ever writes the trades map of the store. -/
lemma zeroTradeBranch_store_shape (ctx : Ctx) (p : PositionModifiedParams) (account : Nat)
    (sendingAccount : Nat) (accountType : AccountType) (positionKey : Nat × Nat)
    (fundingAccrued : Int) (position : FuturesPosition) (stat : FuturesStat) (st : Store) :
    ∃ m, (zeroTradeBranch ctx p account sendingAccount accountType positionKey fundingAccrued
      position stat st).2.2 = { st with trades := m } := by
  simp only [zeroTradeBranch]
  repeat' split
  all_goals exact ⟨_, rfl⟩

/-! ### Frame lemmas for the final segment -/

lemma positionModifiedFinalize_trades (ctx : Ctx) (p : PositionModifiedParams)
    (account : Nat) (positionKey marginAccountKey : Nat × Nat)
    (marginAccountEntity : Option FuturesMarginAccount) (position : FuturesPosition)
    (stat : FuturesStat) (cumulative : FuturesCumulativeStat) (st : Store) :
    (positionModifiedFinalize ctx p account positionKey marginAccountKey marginAccountEntity
      position stat cumulative st).trades = st.trades := by
  cases marginAccountEntity <;> rfl

lemma positionModifiedFinalize_fundingPayments (ctx : Ctx) (p : PositionModifiedParams)
    (account : Nat) (positionKey marginAccountKey : Nat × Nat)
    (marginAccountEntity : Option FuturesMarginAccount) (position : FuturesPosition)
    (stat : FuturesStat) (cumulative : FuturesCumulativeStat) (st : Store) :
    (positionModifiedFinalize ctx p account positionKey marginAccountKey marginAccountEntity
      position stat cumulative st).fundingPayments = st.fundingPayments := by
  cases marginAccountEntity <;> rfl

/-! ### Composition lemmas for handlePositionModified -/

lemma pmPosition0_some (ctx : Ctx) (p : PositionModifiedParams) (st : Store)
    (pos : FuturesPosition) (hp : st.positions (ctx.address, p.id) = some pos) :
    pmPosition0 ctx p st = pos := by
  simp [pmPosition0, hp]

lemma pmStat0_some (p : PositionModifiedParams) (st : Store) (s : FuturesStat)
    (hs : st.stats (resolveAccount st p.account) = some s) :
    pmStat0 p st = s := by
  simp [pmStat0, hs]

lemma pmBranch_eq_of_tradeSize_zero (ctx : Ctx) (p : PositionModifiedParams) (st : Store)
    (htz : p.tradeSize = 0) :
    pmBranch ctx p st =
      ((zeroTradeBranch ctx p (resolveAccount st p.account) p.account
          (resolveAccountType st p.account) (ctx.address, p.id) (pmFunding ctx p st).1
          (pmFunding ctx p st).2.1 (pmFunding ctx p st).2.2.1 (pmFunding ctx p st).2.2.2).1,
       (zeroTradeBranch ctx p (resolveAccount st p.account) p.account
          (resolveAccountType st p.account) (ctx.address, p.id) (pmFunding ctx p st).1
          (pmFunding ctx p st).2.1 (pmFunding ctx p st).2.2.1 (pmFunding ctx p st).2.2.2).2.1,
       pmCumulative0 p st,
       (zeroTradeBranch ctx p (resolveAccount st p.account) p.account
          (resolveAccountType st p.account) (ctx.address, p.id) (pmFunding ctx p st).1
          (pmFunding ctx p st).2.1 (pmFunding ctx p st).2.2.1 (pmFunding ctx p st).2.2.2).2.2) := by
  unfold pmBranch
  rw [if_neg (by simp [htz])]

lemma pmBranch_eq_of_tradeSize_nonzero (ctx : Ctx) (p : PositionModifiedParams) (st : Store)
    (htz : p.tradeSize ≠ 0) :
    pmBranch ctx p st =
      tradeBranch ctx p (resolveAccount st p.account) p.account
        (resolveAccountType st p.account) (st.markets ctx.address) (ctx.address, p.id)
        (pmFunding ctx p st).1 (pmFunding ctx p st).2.1 (pmFunding ctx p st).2.2.1
        (pmCumulative0 p st) (pmFunding ctx p st).2.2.2 := by
  unfold pmBranch
  rw [if_pos htz]

lemma handlePositionModified_trades (ctx : Ctx) (p : PositionModifiedParams) (st : Store) :
    (handlePositionModified ctx p st).trades = (pmBranch ctx p st).2.2.2.trades := by
  unfold handlePositionModified
  exact positionModifiedFinalize_trades ..

lemma handlePositionModified_fundingPayments (ctx : Ctx) (p : PositionModifiedParams)
    (st : Store) :
    (handlePositionModified ctx p st).fundingPayments =
      (pmBranch ctx p st).2.2.2.fundingPayments := by
  unfold handlePositionModified
  exact positionModifiedFinalize_fundingPayments ..

/-! ### Structural lemmas about the PositionLiquidated handlers -/

lemma positionLiquidatedCore_positions_some (ctx : Ctx) (a id : Nat) (sz fee : Int)
    (st : Store) (pos : FuturesPosition) (h : st.positions (ctx.address, id) = some pos) :
    (positionLiquidatedCore ctx a id sz fee st).positions (ctx.address, id) =
      some (liquidatedPosition ctx fee pos) := by
  simp only [positionLiquidatedCore, h]
  cases hs : st.stats (resolveAccount st a) <;>
    cases ht : st.trades (ctx.txHash, ctx.logIndex - 1) <;>
    cases ha : pos.asset <;>
    simp [liquidatedPosition, Store.savePosition, Store.saveStat, Store.saveTrade,
      Store.saveCumulative, upd, ha]

lemma positionLiquidatedCore_positions_none (ctx : Ctx) (a id : Nat) (sz fee : Int)
    (st : Store) (h : st.positions (ctx.address, id) = none) :
    (positionLiquidatedCore ctx a id sz fee st).positions (ctx.address, id) = none := by
  simp only [positionLiquidatedCore, h]
  simp [Store.saveCumulative, h]

/-- The global liquidation counter is incremented by one on every invocation
of positionLiquidatedCore, position found or not. -/
lemma positionLiquidatedCore_global (ctx : Ctx) (a id : Nat) (sz fee : Int) (st : Store) :
    (positionLiquidatedCore ctx a id sz fee st).cumulativeStats CumKey.global =
      some { getOrCreateCumulativeEntity st with
        totalLiquidations := (getOrCreateCumulativeEntity st).totalLiquidations + 1 } := by
  rcases h : st.positions (ctx.address, id) with _ | pos
  · simp only [positionLiquidatedCore, h]
    simp [Store.saveCumulative, upd, getOrCreateCumulativeEntity]
  · simp only [positionLiquidatedCore, h]
    cases hs : st.stats (resolveAccount st a) <;>
      cases ht : st.trades (ctx.txHash, ctx.logIndex - 1) <;>
      cases ha : pos.asset <;>
      simp [Store.savePosition, Store.saveStat, Store.saveTrade, Store.saveCumulative, upd,
        getOrCreateCumulativeEntity, ha]

/-- The per-market liquidation counter is incremented whenever the position is
found and its asset is set. -/
lemma positionLiquidatedCore_market (ctx : Ctx) (a id : Nat) (sz fee : Int) (st : Store)
    (pos : FuturesPosition) (aa : Nat)
    (h : st.positions (ctx.address, id) = some pos) (ha : pos.asset = some aa) :
    (positionLiquidatedCore ctx a id sz fee st).cumulativeStats (CumKey.hexOf aa) =
      some { getOrCreateMarketCumulativeStats st (CumKey.hexOf aa) with
        totalLiquidations :=
          (getOrCreateMarketCumulativeStats st (CumKey.hexOf aa)).totalLiquidations + 1 } := by
  simp only [positionLiquidatedCore, h]
  cases hs : st.stats (resolveAccount st a) <;>
    cases ht : st.trades (ctx.txHash, ctx.logIndex - 1) <;>
    simp [Store.savePosition, Store.saveStat, Store.saveTrade, Store.saveCumulative, upd,
      getOrCreateMarketCumulativeStats, ha]

/-- The stat liquidation counter and fee adjustment are applied whenever both
the position and the stat are found. -/
lemma positionLiquidatedCore_stat (ctx : Ctx) (a id : Nat) (sz fee : Int) (st : Store)
    (pos : FuturesPosition) (s : FuturesStat)
    (h : st.positions (ctx.address, id) = some pos)
    (hs : st.stats (resolveAccount st a) = some s) :
    (positionLiquidatedCore ctx a id sz fee st).stats (resolveAccount st a) =
      some { s with
        liquidations := s.liquidations + 1
        feesPaid := s.feesPaid + fee
        pnl := s.pnl + fee
        pnlWithFeesPaid := s.pnl + fee - (s.feesPaid + fee) } := by
  simp only [positionLiquidatedCore, h, hs]
  cases ht : st.trades (ctx.txHash, ctx.logIndex - 1) <;>
    cases ha : pos.asset <;>
    simp [Store.savePosition, Store.saveStat, Store.saveTrade, Store.saveCumulative, upd, ha]

/-- When no position is found, positionLiquidatedCore leaves every stat
untouched. -/
lemma positionLiquidatedCore_stats_of_none (ctx : Ctx) (a id : Nat) (sz fee : Int)
    (st : Store) (h : st.positions (ctx.address, id) = none) :
    (positionLiquidatedCore ctx a id sz fee st).stats = st.stats := by
  simp only [positionLiquidatedCore, h]
  rfl

/-! ### Claim C1 -/

/-- C1: for every FuturesPosition entity, after every invocation of
handlePositionModified and of handlePositionLiquidated (and its V2 variant)
that saves the position, the identity
pnlWithFeesPaid = pnl - feesPaid + netFunding holds on the saved entity. -/
theorem c1_position_pnl_identity (ctx ctxL ctxL2 : Ctx) (p : PositionModifiedParams)
    (q : PositionLiquidatedParams) (q2 : PositionLiquidatedV2Params) (st stL stL2 : Store) :
    posPnlIdent ((handlePositionModified ctx p st).positions (ctx.address, p.id)) ∧
    posPnlIdent ((handlePositionLiquidated ctxL q stL).positions (ctxL.address, q.id)) ∧
    posPnlIdent ((handlePositionLiquidatedV2 ctxL2 q2 stL2).positions (ctxL2.address, q2.id)) := by
  refine ⟨?_, ?_, ?_⟩
  · rw [handlePositionModified_positions ctx p st]
    simp [posPnlIdent, trailingPosition]
  · rcases h : stL.positions (ctxL.address, q.id) with _ | pos
    · rw [handlePositionLiquidated, positionLiquidatedCore_positions_none ctxL q.account q.id q.size q.fee stL h]
      trivial
    · rw [handlePositionLiquidated, positionLiquidatedCore_positions_some ctxL q.account q.id q.size q.fee stL pos h]
      simp [posPnlIdent, liquidatedPosition]
  · rcases h : stL2.positions (ctxL2.address, q2.id) with _ | pos
    · rw [handlePositionLiquidatedV2, positionLiquidatedCore_positions_none ctxL2 q2.account q2.id q2.size _ stL2 h]
      trivial
    · rw [handlePositionLiquidatedV2, positionLiquidatedCore_positions_some ctxL2 q2.account q2.id q2.size _ stL2 pos h]
      simp [posPnlIdent, liquidatedPosition]

/-! ### Claim C2 -/

/-- C2 counterexample: after a handlePositionModified invocation whose event
carries a non-zero fee, the saved stat violates
pnlWithFeesPaid = pnl - feesPaid, because the source recomputes
pnlWithFeesPaid before adding the fee to feesPaid (perps.ts lines 384-385). -/
theorem c2_stat_identity_counterexample :
    ((handlePositionModified c2ctx c2p emptyStore).stats 1).map
      (fun s => decide (s.pnlWithFeesPaid = s.pnl - s.feesPaid)) = some false := by
  decide

/-- C2 (amended): after every handlePositionModified invocation the saved stat
satisfies pnlWithFeesPaid = pnl - feesPaid + fee, where fee is the fee of the
event just processed; equivalently, the identity of the claim holds with the
feesPaid value from before the trailing fee addition. -/
theorem c2_stat_pnl_identity_amended (ctx : Ctx) (p : PositionModifiedParams) (st : Store) :
    ((handlePositionModified ctx p st).stats (resolveAccount st p.account)).map
      (fun s => decide (s.pnlWithFeesPaid = s.pnl - s.feesPaid + p.fee)) = some true := by
  rw [handlePositionModified_stats ctx p st]
  simp [trailingStat]
  ring

/-! ### Claim C10 -/

/-- In every PnL case of the trade branch, if entryPrice and avgEntryPrice
agree on the incoming position they agree on the outgoing one: the side-flip
case resets both to lastPrice and the size-increase case assigns both the same
weighted average. -/
lemma tradeBranch_entry_avg (ctx : Ctx) (p : PositionModifiedParams) (account : Nat)
    (sendingAccount : Nat) (accountType : AccountType) (marketEntity : Option FuturesMarket)
    (positionKey : Nat × Nat) (fundingAccrued : Int) (position : FuturesPosition)
    (stat : FuturesStat) (cumulative : FuturesCumulativeStat) (st : Store)
    (h : position.entryPrice = position.avgEntryPrice) :
    (tradeBranch ctx p account sendingAccount accountType marketEntity positionKey
      fundingAccrued position stat cumulative st).1.entryPrice =
    (tradeBranch ctx p account sendingAccount accountType marketEntity positionKey
      fundingAccrued position stat cumulative st).1.avgEntryPrice := by
  simp only [tradeBranch]
  repeat' split
  all_goals simp [h]

/-- C10: for every FuturesPosition entity, after every invocation of
handlePositionModified the deprecated entryPrice field equals avgEntryPrice,
provided the two fields agreed on the stored position (they are initialized
equal on creation, and every branch that updates one updates the other
identically). -/
theorem c10_entry_price_tracks_avg (ctx : Ctx) (p : PositionModifiedParams) (st : Store)
    (h : ∀ pos, st.positions (ctx.address, p.id) = some pos →
      pos.entryPrice = pos.avgEntryPrice) :
    ∀ pos2, (handlePositionModified ctx p st).positions (ctx.address, p.id) = some pos2 →
      pos2.entryPrice = pos2.avgEntryPrice := by
  have h0 : (pmPosition0 ctx p st).entryPrice = (pmPosition0 ctx p st).avgEntryPrice := by
    rcases hp : st.positions (ctx.address, p.id) with _ | pos
    · simp [pmPosition0, hp, newFuturesPosition]
    · rw [pmPosition0_some ctx p st pos hp]
      exact h pos hp
  obtain ⟨nf, fi, hf⟩ :=
    applyFunding_position_shape st ctx p (ctx.address, p.id) (pmPosition0 ctx p st)
      (pmStat0 p st) (resolveAccount st p.account)
  have h1 : (pmFunding ctx p st).2.1.entryPrice = (pmFunding ctx p st).2.1.avgEntryPrice := by
    unfold pmFunding
    rw [hf]
    simpa using h0
  have h2 : (pmBranch ctx p st).1.entryPrice = (pmBranch ctx p st).1.avgEntryPrice := by
    by_cases htz : p.tradeSize = 0
    · rw [pmBranch_eq_of_tradeSize_zero ctx p st htz]
      have hfr :=
        zeroTradeBranch_position_frame ctx p (resolveAccount st p.account) p.account
          (resolveAccountType st p.account) (ctx.address, p.id) (pmFunding ctx p st).1
          (pmFunding ctx p st).2.1 (pmFunding ctx p st).2.2.1 (pmFunding ctx p st).2.2.2
      rw [hfr.1, hfr.2.1]
      exact h1
    · rw [pmBranch_eq_of_tradeSize_nonzero ctx p st htz]
      exact tradeBranch_entry_avg ctx p (resolveAccount st p.account) p.account
        (resolveAccountType st p.account) (st.markets ctx.address) (ctx.address, p.id)
        (pmFunding ctx p st).1 (pmFunding ctx p st).2.1 (pmFunding ctx p st).2.2.1
        (pmCumulative0 p st) (pmFunding ctx p st).2.2.2 h1
  intro pos2 hpos2
  rw [handlePositionModified_positions] at hpos2
  have hp2 : pos2 = trailingPosition ctx p (pmBranch ctx p st).1 := by
    exact (Option.some_inj.mp hpos2).symm
  rw [hp2]
  simpa [trailingPosition] using h2

/-- C10 witness: a concrete run of handlePositionModified on the empty store
preserves the entryPrice = avgEntryPrice agreement. -/
theorem c10_entry_price_tracks_avg_witness :
    ((handlePositionModified c10ctx c10p emptyStore).positions
        (c10ctx.address, c10p.id)).map
      (fun q => decide (q.entryPrice = q.avgEntryPrice)) = some true := by
  have h :=
    c10_entry_price_tracks_avg c10ctx c10p emptyStore
      (by intro pos hp; simp [emptyStore] at hp)
  rw [handlePositionModified_positions]
  simp [h _ (handlePositionModified_positions c10ctx c10p emptyStore)]

/-! ### Claim C5 -/

/-- C5: when handlePositionModified processes a zero tradeSize event and a
FuturesMarginTransfer exists at (market, txHash, logIndex-1), the event is
classified as a margin transfer: the signed transfer size is added to
netTransfers (and to totalDeposits when positive), and no trade entity, in
particular no synthetic Liquidation trade, is created, even when the event
size and margin are both zero. -/
theorem c5_margin_transfer_classification (ctx : Ctx) (p : PositionModifiedParams)
    (st : Store) (t : FuturesMarginTransfer) (pos : FuturesPosition)
    (htz : p.tradeSize = 0)
    (ht : st.marginTransfers (ctx.address, ctx.txHash, ctx.logIndex - 1) = some t)
    (hpos : st.positions (ctx.address, p.id) = some pos) :
    (∀ pos2, (handlePositionModified ctx p st).positions (ctx.address, p.id) = some pos2 →
      pos2.netTransfers = pos.netTransfers + t.size ∧
      pos2.totalDeposits = pos.totalDeposits + (if 0 < t.size then t.size else 0)) ∧
    (handlePositionModified ctx p st).trades = st.trades := by
  obtain ⟨nf, fi, hf⟩ :=
    applyFunding_position_shape st ctx p (ctx.address, p.id) (pmPosition0 ctx p st)
      (pmStat0 p st) (resolveAccount st p.account)
  obtain ⟨fpm, hstore⟩ :=
    applyFunding_store_shape st ctx p (ctx.address, p.id) (pmPosition0 ctx p st)
      (pmStat0 p st) (resolveAccount st p.account)
  have ht2 : (pmFunding ctx p st).2.2.2.marginTransfers
      (ctx.address, ctx.txHash, ctx.logIndex - 1) = some t := by
    unfold pmFunding
    rw [hstore]
    exact ht
  have hz :=
    zeroTradeBranch_eq_transfer ctx p (resolveAccount st p.account) p.account
      (resolveAccountType st p.account) (ctx.address, p.id) (pmFunding ctx p st).1
      (pmFunding ctx p st).2.1 (pmFunding ctx p st).2.2.1 (pmFunding ctx p st).2.2.2 t ht2
  have hbr := pmBranch_eq_of_tradeSize_zero ctx p st htz
  rw [hz] at hbr
  constructor
  · intro pos2 hpos2
    rw [handlePositionModified_positions] at hpos2
    have hp2 : pos2 = trailingPosition ctx p (pmBranch ctx p st).1 :=
      (Option.some_inj.mp hpos2).symm
    have hb1 : (pmBranch ctx p st).1 =
        { (pmFunding ctx p st).2.1 with
            netTransfers := (pmFunding ctx p st).2.1.netTransfers + t.size
            totalDeposits :=
              (pmFunding ctx p st).2.1.totalDeposits + (if 0 < t.size then t.size else 0) } := by
      rw [hbr]
    have hfun1 : (pmFunding ctx p st).2.1.netTransfers = pos.netTransfers := by
      unfold pmFunding
      rw [hf]
      simp [pmPosition0_some ctx p st pos hpos]
    have hfun2 : (pmFunding ctx p st).2.1.totalDeposits = pos.totalDeposits := by
      unfold pmFunding
      rw [hf]
      simp [pmPosition0_some ctx p st pos hpos]
    rw [hp2, hb1]
    constructor
    · simp [trailingPosition, hfun1]
    · simp [trailingPosition, hfun2]
  · rw [handlePositionModified_trades, hbr]
    show (pmFunding ctx p st).2.2.2.trades = st.trades
    unfold pmFunding
    rw [hstore]

/-- C5 witness: a concrete margin-transfer-adjacent zero event with zero size
and margin updates netTransfers and totalDeposits and creates no trade. -/
theorem c5_margin_transfer_classification_witness :
    (((handlePositionModified c5ctx c5p c5store).positions (c5ctx.address, c5p.id)).map
        (fun q => decide (q.netTransfers = 500 ∧ q.totalDeposits = 500)) = some true) ∧
    (handlePositionModified c5ctx c5p c5store).trades = c5store.trades := by
  have h :=
    c5_margin_transfer_classification c5ctx c5p c5store
      { account := 3, market := 2, size := 500, timestamp := 2999 }
      { market := 2, asset := none, marketKey := none, account := 3, abstractAccount := 3
        accountType := AccountType.isolatedMargin, isLiquidated := false, isOpen := true
        size := 0, timestamp := 0, openTimestamp := 0, closeTimestamp := none
        avgEntryPrice := 50, entryPrice := 50, exitPrice := none, lastPrice := 50
        margin := 20, initialMargin := 20, pnl := 0, feesPaid := 0, netFunding := 0
        pnlWithFeesPaid := 0, netTransfers := 0, totalDeposits := 0, totalVolume := 0
        trades := 0, fundingIndex := 0, lastTxHash := 0 }
      rfl (by decide) (by decide)
  refine ⟨?_, h.2⟩
  rw [handlePositionModified_positions]
  have h2 := h.1 _ (handlePositionModified_positions c5ctx c5p c5store)
  have e1 : (trailingPosition c5ctx c5p (pmBranch c5ctx c5p c5store).1).netTransfers = 500 := by
    rw [h2.1]
    decide
  have e2 : (trailingPosition c5ctx c5p (pmBranch c5ctx c5p c5store).1).totalDeposits = 500 := by
    rw [h2.2]
    decide
  simp [e1, e2]

/-! ### Claim C7 -/

/-- The branch stage never changes netFunding, fundingIndex, feesPaid or
initialMargin on the position produced by the funding stage. -/
lemma pmBranch_position_funding_frame (ctx : Ctx) (p : PositionModifiedParams) (st : Store) :
    (pmBranch ctx p st).1.netFunding = (pmFunding ctx p st).2.1.netFunding ∧
    (pmBranch ctx p st).1.fundingIndex = (pmFunding ctx p st).2.1.fundingIndex ∧
    (pmBranch ctx p st).1.feesPaid = (pmFunding ctx p st).2.1.feesPaid ∧
    (pmBranch ctx p st).1.initialMargin = (pmFunding ctx p st).2.1.initialMargin := by
  by_cases htz : p.tradeSize = 0
  · rw [pmBranch_eq_of_tradeSize_zero ctx p st htz]
    have hfr :=
      zeroTradeBranch_position_frame ctx p (resolveAccount st p.account) p.account
        (resolveAccountType st p.account) (ctx.address, p.id) (pmFunding ctx p st).1
        (pmFunding ctx p st).2.1 (pmFunding ctx p st).2.2.1 (pmFunding ctx p st).2.2.2
    exact ⟨hfr.2.2.1, hfr.2.2.2.1, hfr.2.2.2.2.1, hfr.2.2.2.2.2⟩
  · rw [pmBranch_eq_of_tradeSize_nonzero ctx p st htz]
    have hfr :=
      tradeBranch_position_frame ctx p (resolveAccount st p.account) p.account
        (resolveAccountType st p.account) (st.markets ctx.address) (ctx.address, p.id)
        (pmFunding ctx p st).1 (pmFunding ctx p st).2.1 (pmFunding ctx p st).2.2.1
        (pmCumulative0 p st) (pmFunding ctx p st).2.2.2
    exact ⟨hfr.1, hfr.2.1, hfr.2.2.1, hfr.2.2.2.2.2⟩

/-- The branch stage never changes the stat feesPaid produced by the funding
stage. -/
lemma pmBranch_stat_feesPaid (ctx : Ctx) (p : PositionModifiedParams) (st : Store) :
    (pmBranch ctx p st).2.1.feesPaid = (pmFunding ctx p st).2.2.1.feesPaid := by
  by_cases htz : p.tradeSize = 0
  · rw [pmBranch_eq_of_tradeSize_zero ctx p st htz]
    exact zeroTradeBranch_stat_frame ctx p (resolveAccount st p.account) p.account
      (resolveAccountType st p.account) (ctx.address, p.id) (pmFunding ctx p st).1
      (pmFunding ctx p st).2.1 (pmFunding ctx p st).2.2.1 (pmFunding ctx p st).2.2.2
  · rw [pmBranch_eq_of_tradeSize_nonzero ctx p st htz]
    exact tradeBranch_stat_frame ctx p (resolveAccount st p.account) p.account
      (resolveAccountType st p.account) (st.markets ctx.address) (ctx.address, p.id)
      (pmFunding ctx p st).1 (pmFunding ctx p st).2.1 (pmFunding ctx p st).2.2.1
      (pmCumulative0 p st) (pmFunding ctx p st).2.2.2

/-- The branch stage never writes fundingPayments. -/
lemma pmBranch_fundingPayments (ctx : Ctx) (p : PositionModifiedParams) (st : Store) :
    (pmBranch ctx p st).2.2.2.fundingPayments = (pmFunding ctx p st).2.2.2.fundingPayments := by
  by_cases htz : p.tradeSize = 0
  · rw [pmBranch_eq_of_tradeSize_zero ctx p st htz]
    obtain ⟨m, hm⟩ :=
      zeroTradeBranch_store_shape ctx p (resolveAccount st p.account) p.account
        (resolveAccountType st p.account) (ctx.address, p.id) (pmFunding ctx p st).1
        (pmFunding ctx p st).2.1 (pmFunding ctx p st).2.2.1 (pmFunding ctx p st).2.2.2
    rw [hm]
  · rw [pmBranch_eq_of_tradeSize_nonzero ctx p st htz]
    exact (tradeBranch_store_frame ctx p (resolveAccount st p.account) p.account
      (resolveAccountType st p.account) (st.markets ctx.address) (ctx.address, p.id)
      (pmFunding ctx p st).1 (pmFunding ctx p st).2.1 (pmFunding ctx p st).2.2.1
      (pmCumulative0 p st) (pmFunding ctx p st).2.2.2).2.2

/-- C7: funding accrues if and only if both FundingRateUpdate checkpoints
exist. When both exist, accrued funding (currentFunding - pastFunding) *
positionSize / UNIT is added to position.netFunding and subtracted from
stat.feesPaid (which then also receives the event fee in the trailing update),
a FundingPayment record is emitted exactly when the amount is non-zero, and
the stored fundingIndex advances to the event index. When either checkpoint is
missing, accrual is skipped, no FundingPayment is written and the stored
fundingIndex is not advanced. -/
theorem c7_funding_accrual (ctx : Ctx) (p : PositionModifiedParams) (st : Store)
    (pos : FuturesPosition) (s0 : FuturesStat)
    (hpos : st.positions (ctx.address, p.id) = some pos)
    (hstat : st.stats (resolveAccount st p.account) = some s0)
    (hne : pos.fundingIndex ≠ p.fundingIndex) :
    (∀ pe ce, st.fundingRateUpdates (ctx.address, pos.fundingIndex) = some pe →
      st.fundingRateUpdates (ctx.address, p.fundingIndex) = some ce →
      (∀ pos2, (handlePositionModified ctx p st).positions (ctx.address, p.id) = some pos2 →
        pos2.netFunding =
          pos.netFunding + Int.tdiv ((ce.funding - pe.funding) * pos.size) ETHER ∧
        pos2.fundingIndex = p.fundingIndex) ∧
      (∀ s2, (handlePositionModified ctx p st).stats (resolveAccount st p.account) = some s2 →
        s2.feesPaid =
          s0.feesPaid - Int.tdiv ((ce.funding - pe.funding) * pos.size) ETHER + p.fee) ∧
      (Int.tdiv ((ce.funding - pe.funding) * pos.size) ETHER ≠ 0 →
        (handlePositionModified ctx p st).fundingPayments
            (((ctx.address, p.id)), ctx.txHash, ctx.logIndex) =
          some { timestamp := ctx.timestamp, account := resolveAccount st p.account
                 positionId := (ctx.address, p.id), marketKey := pos.marketKey
                 asset := pos.asset
                 amount := Int.tdiv ((ce.funding - pe.funding) * pos.size) ETHER }) ∧
      (Int.tdiv ((ce.funding - pe.funding) * pos.size) ETHER = 0 →
        (handlePositionModified ctx p st).fundingPayments = st.fundingPayments)) ∧
    ((st.fundingRateUpdates (ctx.address, pos.fundingIndex) = none ∨
      st.fundingRateUpdates (ctx.address, p.fundingIndex) = none) →
      (∀ pos2, (handlePositionModified ctx p st).positions (ctx.address, p.id) = some pos2 →
        pos2.netFunding = pos.netFunding ∧ pos2.fundingIndex = pos.fundingIndex) ∧
      (∀ s2, (handlePositionModified ctx p st).stats (resolveAccount st p.account) = some s2 →
        s2.feesPaid = s0.feesPaid + p.fee) ∧
      (handlePositionModified ctx p st).fundingPayments = st.fundingPayments) := by
  have hp0 := pmPosition0_some ctx p st pos hpos
  have hs0 := pmStat0_some p st s0 hstat
  have hbp := pmBranch_position_funding_frame ctx p st
  have hbs := pmBranch_stat_feesPaid ctx p st
  have hbf := pmBranch_fundingPayments ctx p st
  constructor
  · intro pe ce hpe hce
    have hfund : pmFunding ctx p st =
        applyFunding st ctx p (ctx.address, p.id) pos s0 (resolveAccount st p.account) := by
      unfold pmFunding
      rw [hp0, hs0]
    rw [applyFunding_eq_both st ctx p (ctx.address, p.id) pos s0
      (resolveAccount st p.account) pe ce hne hpe hce] at hfund
    refine ⟨?_, ?_, ?_, ?_⟩
    · intro pos2 hpos2
      rw [handlePositionModified_positions] at hpos2
      have hp2 : pos2 = trailingPosition ctx p (pmBranch ctx p st).1 :=
        (Option.some_inj.mp hpos2).symm
      rw [hp2]
      constructor
      · show (trailingPosition ctx p (pmBranch ctx p st).1).netFunding = _
        have : (trailingPosition ctx p (pmBranch ctx p st).1).netFunding =
            (pmBranch ctx p st).1.netFunding := by simp [trailingPosition]
        rw [this, hbp.1, hfund]
      · have : (trailingPosition ctx p (pmBranch ctx p st).1).fundingIndex =
            (pmBranch ctx p st).1.fundingIndex := by simp [trailingPosition]
        rw [this, hbp.2.1, hfund]
    · intro s2 hs2
      rw [handlePositionModified_stats] at hs2
      have hs2e : s2 = trailingStat p (pmBranch ctx p st).2.1 :=
        (Option.some_inj.mp hs2).symm
      rw [hs2e]
      have : (trailingStat p (pmBranch ctx p st).2.1).feesPaid =
          (pmBranch ctx p st).2.1.feesPaid + p.fee := by simp [trailingStat]
      rw [this, hbs, hfund]
    · intro hfa
      rw [handlePositionModified_fundingPayments, hbf, hfund]
      have hcond : 0 < ((Int.tdiv ((ce.funding - pe.funding) * pos.size) ETHER).natAbs : Int) := by
        have := Int.natAbs_pos.mpr hfa
        exact_mod_cast this
      rw [if_pos hcond]
      simp [Store.saveFundingPayment, upd]
    · intro hfa
      rw [handlePositionModified_fundingPayments, hbf, hfund]
      rw [if_neg (by simp [hfa])]
  · intro hmiss
    have hfund : pmFunding ctx p st = (0, pos, s0, st) := by
      unfold pmFunding
      rw [hp0, hs0]
      exact applyFunding_eq_missing st ctx p (ctx.address, p.id) pos s0
        (resolveAccount st p.account) hne hmiss
    refine ⟨?_, ?_, ?_⟩
    · intro pos2 hpos2
      rw [handlePositionModified_positions] at hpos2
      have hp2 : pos2 = trailingPosition ctx p (pmBranch ctx p st).1 :=
        (Option.some_inj.mp hpos2).symm
      rw [hp2]
      constructor
      · have : (trailingPosition ctx p (pmBranch ctx p st).1).netFunding =
            (pmBranch ctx p st).1.netFunding := by simp [trailingPosition]
        rw [this, hbp.1, hfund]
      · have : (trailingPosition ctx p (pmBranch ctx p st).1).fundingIndex =
            (pmBranch ctx p st).1.fundingIndex := by simp [trailingPosition]
        rw [this, hbp.2.1, hfund]
    · intro s2 hs2
      rw [handlePositionModified_stats] at hs2
      have hs2e : s2 = trailingStat p (pmBranch ctx p st).2.1 :=
        (Option.some_inj.mp hs2).symm
      rw [hs2e]
      have : (trailingStat p (pmBranch ctx p st).2.1).feesPaid =
          (pmBranch ctx p st).2.1.feesPaid + p.fee := by simp [trailingStat]
      rw [this, hbs, hfund]
    · rw [handlePositionModified_fundingPayments, hbf, hfund]

/-- C7 witness: a concrete run where both checkpoints exist and the accrual is
2 * 3 = 6 units: netFunding gains 6, the stored funding index advances to the
event index 2, stat.feesPaid becomes 10 - 6 + 2 = 6, and a FundingPayment of
amount 6 is recorded. -/
theorem c7_funding_accrual_witness :
    (((handlePositionModified c7ctx c7p c7store).positions (c7ctx.address, c7p.id)).map
        (fun q => decide (q.netFunding = 6 ∧ q.fundingIndex = 2)) = some true) ∧
    (((handlePositionModified c7ctx c7p c7store).stats
        (resolveAccount c7store c7p.account)).map
        (fun s => decide (s.feesPaid = 6)) = some true) ∧
    ((handlePositionModified c7ctx c7p c7store).fundingPayments
        ((c7ctx.address, c7p.id), c7ctx.txHash, c7ctx.logIndex)).map
      FundingPayment.amount = some 6 := by
  have h := c7_funding_accrual c7ctx c7p c7store c7pos c7stat rfl rfl (by decide)
  have ha := h.1 c7past c7cur rfl rfl
  refine ⟨?_, ?_, ?_⟩
  · rw [handlePositionModified_positions]
    have h2 := ha.1 _ (handlePositionModified_positions c7ctx c7p c7store)
    have e1 : (trailingPosition c7ctx c7p (pmBranch c7ctx c7p c7store).1).netFunding = 6 := by
      rw [h2.1]
      decide
    have e2 : (trailingPosition c7ctx c7p (pmBranch c7ctx c7p c7store).1).fundingIndex = 2 := by
      rw [h2.2]
      decide
    simp [e1, e2]
  · rw [handlePositionModified_stats]
    have h2 := ha.2.1 _ (handlePositionModified_stats c7ctx c7p c7store)
    have e : (trailingStat c7p (pmBranch c7ctx c7p c7store).2.1).feesPaid = 6 := by
      rw [h2]
      decide
    simp [e]
  · have h3 := ha.2.2.1 (by decide)
    rw [h3]
    decide

/-! ### Claim C3 -/

/-- Same-sign size-increase case of handlePositionModified, stated against the
stored position: the weighted average recomputation and the absence of PnL. -/
lemma increaseCase_aux (ctx : Ctx) (p : PositionModifiedParams) (st : Store)
    (pos : FuturesPosition)
    (hpos : st.positions (ctx.address, p.id) = some pos)
    (htz : p.tradeSize ≠ 0) (hsz : p.size ≠ 0)
    (hflip : ¬((pos.size < 0 ∧ 0 < p.size) ∨ (0 < pos.size ∧ p.size < 0)))
    (hinc : pos.size.natAbs < p.size.natAbs) :
    ∀ pos2, (handlePositionModified ctx p st).positions (ctx.address, p.id) = some pos2 →
      pos2.avgEntryPrice =
        Int.tdiv ((pos.size.natAbs : Int) * pos.entryPrice +
          (p.tradeSize.natAbs : Int) * p.lastPrice) (p.size.natAbs : Int) ∧
      pos2.entryPrice = pos2.avgEntryPrice ∧
      pos2.pnl = pos.pnl ∧
      pos2.size = p.size := by
  have hp0 := pmPosition0_some ctx p st pos hpos
  obtain ⟨nf, fi, hf⟩ :=
    applyFunding_position_shape st ctx p (ctx.address, p.id) (pmPosition0 ctx p st)
      (pmStat0 p st) (resolveAccount st p.account)
  have hfp : (pmFunding ctx p st).2.1.size = pos.size ∧
      (pmFunding ctx p st).2.1.entryPrice = pos.entryPrice ∧
      (pmFunding ctx p st).2.1.pnl = pos.pnl := by
    unfold pmFunding
    rw [hf, hp0]
    exact ⟨rfl, rfl, rfl⟩
  have hbr := pmBranch_eq_of_tradeSize_nonzero ctx p st htz
  have hincr :=
    tradeBranch_increase_fields ctx p (resolveAccount st p.account) p.account
      (resolveAccountType st p.account) (st.markets ctx.address) (ctx.address, p.id)
      (pmFunding ctx p st).1 (pmFunding ctx p st).2.1 (pmFunding ctx p st).2.2.1
      (pmCumulative0 p st) (pmFunding ctx p st).2.2.2 hsz
      (by rw [hfp.1]; exact hflip) (by rw [hfp.1]; exact hinc)
  intro pos2 hlook
  rw [handlePositionModified_positions] at hlook
  have hp2 : pos2 = trailingPosition ctx p (pmBranch ctx p st).1 :=
    (Option.some_inj.mp hlook).symm
  rw [hp2]
  refine ⟨?_, ?_, ?_, ?_⟩
  · have e : (trailingPosition ctx p (pmBranch ctx p st).1).avgEntryPrice =
        (pmBranch ctx p st).1.avgEntryPrice := by simp [trailingPosition]
    rw [e, hbr, hincr.1, hfp.1, hfp.2.1]
  · have e1 : (trailingPosition ctx p (pmBranch ctx p st).1).entryPrice =
        (pmBranch ctx p st).1.entryPrice := by simp [trailingPosition]
    have e2 : (trailingPosition ctx p (pmBranch ctx p st).1).avgEntryPrice =
        (pmBranch ctx p st).1.avgEntryPrice := by simp [trailingPosition]
    rw [e1, e2, hbr, hincr.2.1, hincr.1]
  · have e : (trailingPosition ctx p (pmBranch ctx p st).1).pnl =
        (pmBranch ctx p st).1.pnl := by simp [trailingPosition]
    rw [e, hbr, hincr.2.2.1, hfp.2.2]
  · simp [trailingPosition]

/-- C3 counterexample: splitting a +2 increase at price 13 into two +1
increases yields avgEntryPrice 11, while the exact volume-weighted average of
the same fills is (1*10 + 1*13 + 1*13) / 3 = 12, which the unsplit event
produces; the split therefore changes the result, refuting the claimed
split-independence. -/
theorem c3_avg_entry_price_counterexample :
    (((handlePositionModified c3ctx2 c3p2 (handlePositionModified c3ctx1 c3p1 c3store)).positions
        (1, 1)).map FuturesPosition.avgEntryPrice = some 11) ∧
    (((handlePositionModified c3ctx1 c3p3 c3store).positions (1, 1)).map
        FuturesPosition.avgEntryPrice = some 12) ∧
    (11 : Int) ≠ Int.tdiv (1 * 10 + 1 * 13 + 1 * 13) 3 := by
  refine ⟨by decide, by decide, by decide⟩

/-- C3 (amended): a same-sign size increase applies no PnL and recomputes
avgEntryPrice = (|oldSize| * oldEntryPrice + |tradeSizeDelta| * lastPrice) /
|newSize| with truncating integer division; consequently the final
avgEntryPrice of a sequence of same-direction increases equals the volume
weighted average of all entry prices whenever the intermediate divisions are
exact (in general truncation makes the result depend on the split). -/
theorem c3_avg_entry_price_amended :
    (∀ (ctx : Ctx) (p : PositionModifiedParams) (st : Store) (pos : FuturesPosition),
      st.positions (ctx.address, p.id) = some pos →
      pos.entryPrice = pos.avgEntryPrice →
      p.tradeSize ≠ 0 → p.size ≠ 0 →
      ¬((pos.size < 0 ∧ 0 < p.size) ∨ (0 < pos.size ∧ p.size < 0)) →
      pos.size.natAbs < p.size.natAbs →
      ∀ pos2, (handlePositionModified ctx p st).positions (ctx.address, p.id) = some pos2 →
        pos2.avgEntryPrice =
          Int.tdiv ((pos.size.natAbs : Int) * pos.avgEntryPrice +
            (p.tradeSize.natAbs : Int) * p.lastPrice) (p.size.natAbs : Int) ∧
        pos2.pnl = pos.pnl) ∧
    (∀ (ctx1 : Ctx) (p1 : PositionModifiedParams) (ctx2 : Ctx)
        (p2 : PositionModifiedParams) (st : Store) (pos : FuturesPosition),
      st.positions (ctx1.address, p1.id) = some pos →
      pos.entryPrice = pos.avgEntryPrice →
      0 < pos.size → 0 < p1.tradeSize → 0 < p2.tradeSize →
      p1.size = pos.size + p1.tradeSize →
      p2.size = p1.size + p2.tradeSize →
      ctx2.address = ctx1.address → p2.id = p1.id →
      (pos.size + p1.tradeSize) ∣
        (pos.size * pos.avgEntryPrice + p1.tradeSize * p1.lastPrice) →
      ∀ pos2, (handlePositionModified ctx2 p2 (handlePositionModified ctx1 p1 st)).positions
          (ctx2.address, p2.id) = some pos2 →
        pos2.avgEntryPrice =
          Int.tdiv (pos.size * pos.avgEntryPrice + p1.tradeSize * p1.lastPrice +
            p2.tradeSize * p2.lastPrice) (pos.size + p1.tradeSize + p2.tradeSize)) := by
  constructor
  · intro ctx p st pos hpos hea htz hsz hflip hinc pos2 hlook
    have h := increaseCase_aux ctx p st pos hpos htz hsz hflip hinc pos2 hlook
    refine ⟨?_, h.2.2.1⟩
    rw [h.1, hea]
  · intro ctx1 p1 ctx2 p2 st pos hpos hea hs0 hd1 hd2 hsz1 hsz2 haddr hid hdvd pos2 hlook
    have htz1 : p1.tradeSize ≠ 0 := by omega
    have hszne1 : p1.size ≠ 0 := by omega
    have hflip1 : ¬((pos.size < 0 ∧ 0 < p1.size) ∨ (0 < pos.size ∧ p1.size < 0)) := by omega
    have hinc1 : pos.size.natAbs < p1.size.natAbs := by omega
    have h1 := increaseCase_aux ctx1 p1 st pos hpos htz1 hszne1 hflip1 hinc1
    have hsave := handlePositionModified_positions ctx1 p1 st
    have hAfields := h1 (trailingPosition ctx1 p1 (pmBranch ctx1 p1 st).1) hsave
    have hpos2 : (handlePositionModified ctx1 p1 st).positions (ctx2.address, p2.id) =
        some (trailingPosition ctx1 p1 (pmBranch ctx1 p1 st).1) := by
      rw [haddr, hid]
      exact hsave
    have htz2 : p2.tradeSize ≠ 0 := by omega
    have hszne2 : p2.size ≠ 0 := by omega
    have hflip2 : ¬(((trailingPosition ctx1 p1 (pmBranch ctx1 p1 st).1).size < 0 ∧ 0 < p2.size) ∨
        (0 < (trailingPosition ctx1 p1 (pmBranch ctx1 p1 st).1).size ∧ p2.size < 0)) := by
      rw [hAfields.2.2.2]
      omega
    have hinc2 : (trailingPosition ctx1 p1 (pmBranch ctx1 p1 st).1).size.natAbs <
        p2.size.natAbs := by
      rw [hAfields.2.2.2]
      omega
    have h2 :=
      increaseCase_aux ctx2 p2 (handlePositionModified ctx1 p1 st)
        (trailingPosition ctx1 p1 (pmBranch ctx1 p1 st).1) hpos2 htz2 hszne2 hflip2 hinc2
        pos2 hlook
    rw [h2.1, hAfields.2.2.2, hAfields.2.1, hAfields.1, hea]
    have n0 : ((pos.size.natAbs : Int)) = pos.size := Int.natAbs_of_nonneg (by omega)
    have n1 : ((p1.size.natAbs : Int)) = p1.size := Int.natAbs_of_nonneg (by omega)
    have n2 : ((p2.size.natAbs : Int)) = p2.size := Int.natAbs_of_nonneg (by omega)
    have nt1 : ((p1.tradeSize.natAbs : Int)) = p1.tradeSize := Int.natAbs_of_nonneg (by omega)
    have nt2 : ((p2.tradeSize.natAbs : Int)) = p2.tradeSize := Int.natAbs_of_nonneg (by omega)
    rw [n0, n1, n2, nt1, nt2, hsz1]
    rw [Int.mul_tdiv_cancel' hdvd, hsz2, hsz1]

/-- C3 witness: with exact intermediate division (1 unit at 10 plus 1 unit at
12 gives average 11 exactly), a further increase of 1 unit at 14 lands on the
exact volume-weighted average (10 + 12 + 14) / 3 = 12; and the single-event
formula holds on the first increment. -/
theorem c3_avg_entry_price_witness :
    (((handlePositionModified c3ctx1 c3wp1 c3store).positions
        (c3ctx1.address, c3wp1.id)).map
        (fun q => decide (q.avgEntryPrice = 11 ∧ q.pnl = 0)) = some true) ∧
    (((handlePositionModified c3ctx2 c3wp2 (handlePositionModified c3ctx1 c3wp1 c3store)).positions
        (c3ctx2.address, c3wp2.id)).map
        (fun q => decide (q.avgEntryPrice = 12)) = some true) := by
  have hA :=
    c3_avg_entry_price_amended.1 c3ctx1 c3wp1 c3store c3pos rfl rfl (by decide) (by decide)
      (by decide) (by decide)
  have hB :=
    c3_avg_entry_price_amended.2 c3ctx1 c3wp1 c3ctx2 c3wp2 c3store c3pos rfl rfl (by decide)
      (by decide) (by decide) rfl rfl rfl rfl (by decide)
  constructor
  · rw [handlePositionModified_positions]
    have h2 := hA _ (handlePositionModified_positions c3ctx1 c3wp1 c3store)
    have e1 : (trailingPosition c3ctx1 c3wp1 (pmBranch c3ctx1 c3wp1 c3store).1).avgEntryPrice =
        11 := by
      rw [h2.1]
      decide
    have e2 : (trailingPosition c3ctx1 c3wp1 (pmBranch c3ctx1 c3wp1 c3store).1).pnl = 0 := by
      rw [h2.2]
      decide
    simp [e1, e2]
  · rw [handlePositionModified_positions]
    have h2 := hB _ (handlePositionModified_positions c3ctx2 c3wp2
      (handlePositionModified c3ctx1 c3wp1 c3store))
    have e : (trailingPosition c3ctx2 c3wp2
        (pmBranch c3ctx2 c3wp2 (handlePositionModified c3ctx1 c3wp1 c3store)).1).avgEntryPrice =
        12 := by
      rw [h2]
      decide
    simp [e]

/-! ### Claim C6 -/

/-- After a synthetic-liquidation PositionModified event with zero fee, the
saved position satisfies pnl = -(initialMargin + netTransfers) + feesPaid -
netFunding, regardless of the prior state of the position. -/
lemma liqPrecursor_invariant (ctx : Ctx) (p : PositionModifiedParams) (st : Store)
    (htz : p.tradeSize = 0) (hs : p.size = 0) (hm : p.margin = 0) (hf0 : p.fee = 0)
    (hmt : st.marginTransfers (ctx.address, ctx.txHash, ctx.logIndex - 1) = none) :
    (trailingPosition ctx p (pmBranch ctx p st).1).pnl =
      -((trailingPosition ctx p (pmBranch ctx p st).1).initialMargin +
        (trailingPosition ctx p (pmBranch ctx p st).1).netTransfers) +
      (trailingPosition ctx p (pmBranch ctx p st).1).feesPaid -
      (trailingPosition ctx p (pmBranch ctx p st).1).netFunding := by
  have hbr := pmBranch_eq_of_tradeSize_zero ctx p st htz
  obtain ⟨m, hsh⟩ :=
    applyFunding_store_shape st ctx p (ctx.address, p.id) (pmPosition0 ctx p st)
      (pmStat0 p st) (resolveAccount st p.account)
  have hmt2 : (pmFunding ctx p st).2.2.2.marginTransfers
      (ctx.address, ctx.txHash, ctx.logIndex - 1) = none := by
    unfold pmFunding
    rw [hsh]
    exact hmt
  have hl :=
    zeroTradeBranch_liq_position ctx p (resolveAccount st p.account) p.account
      (resolveAccountType st p.account) (ctx.address, p.id) (pmFunding ctx p st).1
      (pmFunding ctx p st).2.1 (pmFunding ctx p st).2.2.1 (pmFunding ctx p st).2.2.2
      hmt2 hs hm
  have hb1 : (pmBranch ctx p st).1 =
      { (pmFunding ctx p st).2.1 with
          pnl := ((pmFunding ctx p st).2.1.initialMargin +
              (pmFunding ctx p st).2.1.netTransfers) * (-1) +
            (pmFunding ctx p st).2.1.feesPaid - (pmFunding ctx p st).2.1.netFunding
          pnlWithFeesPaid := ((pmFunding ctx p st).2.1.initialMargin +
            (pmFunding ctx p st).2.1.netTransfers) * (-1) } := by
    rw [hbr]
    exact hl
  simp [trailingPosition, hb1, hf0]

/-- C6 counterexample: when the synthetic-liquidation PositionModified event
carries a non-zero fee (here 5), the claimed identity fails after the
subsequent PositionLiquidated event, because that fee enters feesPaid after
the full-loss pnl was computed. -/
theorem c6_liquidation_pnl_counterexample :
    ((handlePositionLiquidated c6ctx2 c6q (handlePositionModified c6ctx1 c6p1 c6store)).positions
        (1, 1)).map
      (fun q => decide (q.pnl =
        -(q.initialMargin + q.netTransfers) + q.feesPaid - q.netFunding)) = some false := by
  decide

/-- C6 (amended): when the synthetic-liquidation PositionModified event
carries a zero fee, then after the subsequent PositionLiquidated event with
any fee the saved position satisfies, exactly,
pnl = -(initialMargin + netTransfers) + feesPaid - netFunding, for any prior
sequence of trades, funding accruals and fees. -/
theorem c6_liquidation_pnl_identity_amended (ctx1 : Ctx) (p1 : PositionModifiedParams)
    (ctx2 : Ctx) (q : PositionLiquidatedParams) (st : Store)
    (htz : p1.tradeSize = 0) (hs : p1.size = 0) (hm : p1.margin = 0) (hf0 : p1.fee = 0)
    (hmt : st.marginTransfers (ctx1.address, ctx1.txHash, ctx1.logIndex - 1) = none)
    (haddr : ctx2.address = ctx1.address) (hid : q.id = p1.id) :
    ∀ pos2, (handlePositionLiquidated ctx2 q (handlePositionModified ctx1 p1 st)).positions
        (ctx2.address, q.id) = some pos2 →
      pos2.pnl =
        -(pos2.initialMargin + pos2.netTransfers) + pos2.feesPaid - pos2.netFunding := by
  have hAlook : (handlePositionModified ctx1 p1 st).positions (ctx2.address, q.id) =
      some (trailingPosition ctx1 p1 (pmBranch ctx1 p1 st).1) := by
    rw [haddr, hid]
    exact handlePositionModified_positions ctx1 p1 st
  have hinv := liqPrecursor_invariant ctx1 p1 st htz hs hm hf0 hmt
  intro pos2 hlook
  rw [handlePositionLiquidated] at hlook
  rw [positionLiquidatedCore_positions_some ctx2 q.account q.id q.size q.fee
    (handlePositionModified ctx1 p1 st) (trailingPosition ctx1 p1 (pmBranch ctx1 p1 st).1)
    hAlook] at hlook
  have hp2 : pos2 = liquidatedPosition ctx2 q.fee
      (trailingPosition ctx1 p1 (pmBranch ctx1 p1 st).1) :=
    (Option.some_inj.mp hlook).symm
  rw [hp2]
  simp only [liquidatedPosition]
  rw [hinv]
  ring

/-- C6 witness: the concrete zero-fee precursor followed by a fee-7
liquidation satisfies the full-loss identity. -/
theorem c6_liquidation_pnl_identity_witness :
    ((handlePositionLiquidated c6ctx2 c6q (handlePositionModified c6ctx1 c6wp1 c6store)).positions
        (c6ctx2.address, c6q.id)).map
      (fun q => decide (q.pnl =
        -(q.initialMargin + q.netTransfers) + q.feesPaid - q.netFunding)) = some true := by
  have h :=
    c6_liquidation_pnl_identity_amended c6ctx1 c6wp1 c6ctx2 c6q c6store rfl rfl rfl rfl
      (by decide) rfl rfl
  have hAlook : (handlePositionModified c6ctx1 c6wp1 c6store).positions
      (c6ctx2.address, c6q.id) =
      some (trailingPosition c6ctx1 c6wp1 (pmBranch c6ctx1 c6wp1 c6store).1) :=
    handlePositionModified_positions c6ctx1 c6wp1 c6store
  have hcore :=
    positionLiquidatedCore_positions_some c6ctx2 c6q.account c6q.id c6q.size c6q.fee
      (handlePositionModified c6ctx1 c6wp1 c6store)
      (trailingPosition c6ctx1 c6wp1 (pmBranch c6ctx1 c6wp1 c6store).1) hAlook
  have hlook2 : (handlePositionLiquidated c6ctx2 c6q
      (handlePositionModified c6ctx1 c6wp1 c6store)).positions (c6ctx2.address, c6q.id) =
      some (liquidatedPosition c6ctx2 c6q.fee
        (trailingPosition c6ctx1 c6wp1 (pmBranch c6ctx1 c6wp1 c6store).1)) := by
    rw [handlePositionLiquidated]
    exact hcore
  rw [hlook2]
  simp [h _ hlook2]

/-! ### Claim C8 -/

/-- C8 counterexample: the stat-update of handlePositionLiquidated is nested
under the position check, so when the position is missing an existing stat is
left completely untouched, contradicting the claim that an existing stat is
always incremented and fee-adjusted. -/
theorem c8_liquidation_counters_counterexample :
    (c8nstore.stats 11).isSome = true ∧
    (handlePositionLiquidated c8ctx c8q c8nstore).stats 11 = c8nstore.stats 11 ∧
    ((handlePositionLiquidated c8ctx c8q c8nstore).stats 11).map
      FuturesStat.liquidations = some 0 := by
  refine ⟨by decide, ?_, by decide⟩
  rw [handlePositionLiquidated]
  rw [positionLiquidatedCore_stats_of_none c8ctx c8q.account c8q.id c8q.size c8q.fee
    c8nstore rfl]

/-- C8 (amended): every invocation of handlePositionLiquidated and of
handlePositionLiquidatedV2 increments the global totalLiquidations by one,
even when no position exists for the event key; the per-market counter is
incremented whenever the position is found and its asset is set; and the stat
counter and fee adjustment are applied whenever both the position and the stat
exist (an existing stat is not touched when the position is missing). -/
theorem c8_liquidation_counters_amended :
    (∀ (ctx : Ctx) (q : PositionLiquidatedParams) (st : Store),
      (handlePositionLiquidated ctx q st).cumulativeStats CumKey.global =
        some { getOrCreateCumulativeEntity st with
          totalLiquidations := (getOrCreateCumulativeEntity st).totalLiquidations + 1 }) ∧
    (∀ (ctx : Ctx) (q2 : PositionLiquidatedV2Params) (st : Store),
      (handlePositionLiquidatedV2 ctx q2 st).cumulativeStats CumKey.global =
        some { getOrCreateCumulativeEntity st with
          totalLiquidations := (getOrCreateCumulativeEntity st).totalLiquidations + 1 }) ∧
    (∀ (ctx : Ctx) (q : PositionLiquidatedParams) (st : Store) (pos : FuturesPosition)
        (aa : Nat), st.positions (ctx.address, q.id) = some pos → pos.asset = some aa →
      (handlePositionLiquidated ctx q st).cumulativeStats (CumKey.hexOf aa) =
        some { getOrCreateMarketCumulativeStats st (CumKey.hexOf aa) with
          totalLiquidations :=
            (getOrCreateMarketCumulativeStats st (CumKey.hexOf aa)).totalLiquidations + 1 }) ∧
    (∀ (ctx : Ctx) (q2 : PositionLiquidatedV2Params) (st : Store) (pos : FuturesPosition)
        (aa : Nat), st.positions (ctx.address, q2.id) = some pos → pos.asset = some aa →
      (handlePositionLiquidatedV2 ctx q2 st).cumulativeStats (CumKey.hexOf aa) =
        some { getOrCreateMarketCumulativeStats st (CumKey.hexOf aa) with
          totalLiquidations :=
            (getOrCreateMarketCumulativeStats st (CumKey.hexOf aa)).totalLiquidations + 1 }) ∧
    (∀ (ctx : Ctx) (q : PositionLiquidatedParams) (st : Store) (pos : FuturesPosition)
        (s : FuturesStat), st.positions (ctx.address, q.id) = some pos →
      st.stats (resolveAccount st q.account) = some s →
      (handlePositionLiquidated ctx q st).stats (resolveAccount st q.account) =
        some { s with
          liquidations := s.liquidations + 1
          feesPaid := s.feesPaid + q.fee
          pnl := s.pnl + q.fee
          pnlWithFeesPaid := s.pnl + q.fee - (s.feesPaid + q.fee) }) ∧
    (∀ (ctx : Ctx) (q2 : PositionLiquidatedV2Params) (st : Store) (pos : FuturesPosition)
        (s : FuturesStat), st.positions (ctx.address, q2.id) = some pos →
      st.stats (resolveAccount st q2.account) = some s →
      (handlePositionLiquidatedV2 ctx q2 st).stats (resolveAccount st q2.account) =
        some { s with
          liquidations := s.liquidations + 1
          feesPaid := s.feesPaid + (q2.flaggerFee + q2.liquidatorFee + q2.stakersFee)
          pnl := s.pnl + (q2.flaggerFee + q2.liquidatorFee + q2.stakersFee)
          pnlWithFeesPaid := s.pnl + (q2.flaggerFee + q2.liquidatorFee + q2.stakersFee) -
            (s.feesPaid + (q2.flaggerFee + q2.liquidatorFee + q2.stakersFee)) }) := by
  refine ⟨?_, ?_, ?_, ?_, ?_, ?_⟩
  · intro ctx q st
    rw [handlePositionLiquidated]
    exact positionLiquidatedCore_global ctx q.account q.id q.size q.fee st
  · intro ctx q2 st
    rw [handlePositionLiquidatedV2]
    exact positionLiquidatedCore_global ctx q2.account q2.id q2.size _ st
  · intro ctx q st pos aa h ha
    rw [handlePositionLiquidated]
    exact positionLiquidatedCore_market ctx q.account q.id q.size q.fee st pos aa h ha
  · intro ctx q2 st pos aa h ha
    rw [handlePositionLiquidatedV2]
    exact positionLiquidatedCore_market ctx q2.account q2.id q2.size _ st pos aa h ha
  · intro ctx q st pos s h hs
    rw [handlePositionLiquidated]
    exact positionLiquidatedCore_stat ctx q.account q.id q.size q.fee st pos s h hs
  · intro ctx q2 st pos s h hs
    rw [handlePositionLiquidatedV2]
    exact positionLiquidatedCore_stat ctx q2.account q2.id q2.size _ st pos s h hs

/-- C8 witness: on a store holding a position with asset 3 and a stat, both
handlers bump the global and per-market counters to one and adjust the stat
with the (total) fee 3. -/
theorem c8_liquidation_counters_witness :
    (((handlePositionLiquidated c8ctx c8q c8store).cumulativeStats CumKey.global).map
        FuturesCumulativeStat.totalLiquidations = some 1) ∧
    (((handlePositionLiquidatedV2 c8ctx c8qv2 c8store).cumulativeStats CumKey.global).map
        FuturesCumulativeStat.totalLiquidations = some 1) ∧
    (((handlePositionLiquidated c8ctx c8q c8store).cumulativeStats (CumKey.hexOf 3)).map
        FuturesCumulativeStat.totalLiquidations = some 1) ∧
    (((handlePositionLiquidated c8ctx c8q c8store).stats
        (resolveAccount c8store c8q.account)).map
        (fun s => decide (s.liquidations = 1 ∧ s.feesPaid = 4 ∧ s.pnl = 5)) = some true) := by
  have h := c8_liquidation_counters_amended
  refine ⟨?_, ?_, ?_, ?_⟩
  · rw [h.1 c8ctx c8q c8store]
    decide
  · rw [h.2.1 c8ctx c8qv2 c8store]
    decide
  · rw [h.2.2.1 c8ctx c8q c8store c8pos 3 rfl rfl]
    decide
  · rw [h.2.2.2.2.1 c8ctx c8q c8store c8pos c8stat rfl rfl]
    decide

/-! ### Claim C9 -/

/-- Filled case of handleDelayedOrderRemoved: when market, order, stat and
adjacent trade all exist, the order is saved with status Filled and keeper set
to the transaction sender. -/
lemma handleDelayedOrderRemoved_filled (ctx : Ctx) (r : DelayedOrderRemovedParams)
    (st : Store) (m : FuturesMarket) (ord : FuturesOrder) (s : FuturesStat)
    (tr : FuturesTrade)
    (hm : st.markets ctx.address = some m)
    (ho : st.orders (m.asset, r.account, r.targetRoundId) = some ord)
    (hs : st.stats (resolveAccount st r.account) = some s)
    (ht : st.trades (ctx.txHash, ctx.logIndex - 1) = some tr) :
    (handleDelayedOrderRemoved ctx r st).orders (m.asset, r.account, r.targetRoundId) =
      some { ord with keeper := ctx.txFrom, status := OrderStatus.Filled } := by
  simp only [handleDelayedOrderRemoved, hm, ho, hs, ht]
  repeat' split
  all_goals
    simp [Store.saveOrder, Store.saveStat, Store.saveTrade, Store.savePosition,
      Store.saveSmartMarginOrder, upd, updateAggregateStatEntities_orders]

/-- Cancelled case of handleDelayedOrderRemoved: when the stat or the adjacent
trade is missing, the order is saved with status Cancelled (the keeper is
still stamped with the transaction sender). -/
lemma handleDelayedOrderRemoved_cancelled (ctx : Ctx) (r : DelayedOrderRemovedParams)
    (st : Store) (m : FuturesMarket) (ord : FuturesOrder)
    (hm : st.markets ctx.address = some m)
    (ho : st.orders (m.asset, r.account, r.targetRoundId) = some ord)
    (hmiss : st.stats (resolveAccount st r.account) = none ∨
      st.trades (ctx.txHash, ctx.logIndex - 1) = none) :
    (handleDelayedOrderRemoved ctx r st).orders (m.asset, r.account, r.targetRoundId) =
      some { ord with keeper := ctx.txFrom, status := OrderStatus.Cancelled } := by
  simp only [handleDelayedOrderRemoved, hm, ho]
  rcases hmiss with h | h
  · cases ht : st.trades (ctx.txHash, ctx.logIndex - 1) <;> rw [h] <;>
      simp [Store.saveOrder, upd]
  · cases hs : st.stats (resolveAccount st r.account) <;> rw [h] <;>
      simp [Store.saveOrder, upd]

/-- C9 counterexample: an order whose adjacent trade exists is nevertheless
marked Cancelled when no stat entity exists for the resolved account, because
the source requires statEntity and tradeEntity together (perps.ts:833);
the claim said the trade alone decides Filled. -/
theorem c9_order_removal_counterexample :
    (c9store.trades (c9ctx.txHash, c9ctx.logIndex - 1)).isSome = true ∧
    ((handleDelayedOrderRemoved c9ctx c9r c9store).orders
        (some 5, 12, 9)).map FuturesOrder.status = some OrderStatus.Cancelled := by
  refine ⟨by decide, by decide⟩

/-- C9 (amended): for an existing order on a known market, the removal is
classified Filled (keeper = transaction sender) exactly when both a
FuturesTrade at (txHash, logIndex-1) and a FuturesStat for the resolved
account exist; when either is missing the order is marked Cancelled. -/
theorem c9_order_removal_amended :
    (∀ (ctx : Ctx) (r : DelayedOrderRemovedParams) (st : Store) (m : FuturesMarket)
        (ord : FuturesOrder) (s : FuturesStat) (tr : FuturesTrade),
      st.markets ctx.address = some m →
      st.orders (m.asset, r.account, r.targetRoundId) = some ord →
      st.stats (resolveAccount st r.account) = some s →
      st.trades (ctx.txHash, ctx.logIndex - 1) = some tr →
      (handleDelayedOrderRemoved ctx r st).orders (m.asset, r.account, r.targetRoundId) =
        some { ord with keeper := ctx.txFrom, status := OrderStatus.Filled }) ∧
    (∀ (ctx : Ctx) (r : DelayedOrderRemovedParams) (st : Store) (m : FuturesMarket)
        (ord : FuturesOrder),
      st.markets ctx.address = some m →
      st.orders (m.asset, r.account, r.targetRoundId) = some ord →
      (st.stats (resolveAccount st r.account) = none ∨
        st.trades (ctx.txHash, ctx.logIndex - 1) = none) →
      (handleDelayedOrderRemoved ctx r st).orders (m.asset, r.account, r.targetRoundId) =
        some { ord with keeper := ctx.txFrom, status := OrderStatus.Cancelled }) := by
  constructor
  · intro ctx r st m ord s tr hm ho hs ht
    exact handleDelayedOrderRemoved_filled ctx r st m ord s tr hm ho hs ht
  · intro ctx r st m ord hm ho hmiss
    exact handleDelayedOrderRemoved_cancelled ctx r st m ord hm ho hmiss

/-- C9 witness: with the stat present the same configuration is Filled with
keeper 8; with the stat missing it is Cancelled. -/
theorem c9_order_removal_witness :
    ((handleDelayedOrderRemoved c9ctx c9r c9wstore).orders (some 5, 12, 9) =
      some { c9order with keeper := 8, status := OrderStatus.Filled }) ∧
    ((handleDelayedOrderRemoved c9ctx c9r c9store).orders (some 5, 12, 9) =
      some { c9order with keeper := 8, status := OrderStatus.Cancelled }) := by
  constructor
  · exact c9_order_removal_amended.1 c9ctx c9r c9wstore c9market c9order
      { account := 12, feesPaid := 0, pnl := 0, pnlWithFeesPaid := 0, liquidations := 0
        totalTrades := 0, totalVolume := 0, smartMarginVolume := 0 } c9trade
      rfl rfl rfl rfl
  · exact c9_order_removal_amended.2 c9ctx c9r c9store c9market c9order rfl rfl
      (Or.inl rfl)

/-! ### Claim C4 -/

/-- Full-close case of handlePositionModified, stated against the stored
position: the trade PnL is (lastPrice - avgEntryPrice) * oldSize / UNIT, it is
added to position.pnl and stat.pnl, the position is closed and exit data is
recorded. -/
lemma closeCase_aux (ctx : Ctx) (p : PositionModifiedParams) (st : Store)
    (pos : FuturesPosition)
    (hpos : st.positions (ctx.address, p.id) = some pos)
    (htz : p.tradeSize ≠ 0) (hsz : p.size = 0) :
    (∀ pos2, (handlePositionModified ctx p st).positions (ctx.address, p.id) = some pos2 →
      pos2.pnl = pos.pnl + Int.tdiv ((p.lastPrice - pos.avgEntryPrice) * pos.size) ETHER ∧
      pos2.isOpen = false ∧ pos2.exitPrice = some p.lastPrice ∧
      pos2.closeTimestamp = some ctx.timestamp) ∧
    (∀ s0, st.stats (resolveAccount st p.account) = some s0 →
      ∀ s2, (handlePositionModified ctx p st).stats (resolveAccount st p.account) = some s2 →
        s2.pnl = s0.pnl + Int.tdiv ((p.lastPrice - pos.avgEntryPrice) * pos.size) ETHER) ∧
    ((handlePositionModified ctx p st).trades (ctx.txHash, ctx.logIndex)).map FuturesTrade.pnl =
      some (Int.tdiv ((p.lastPrice - pos.avgEntryPrice) * pos.size) ETHER) := by
  have hp0 := pmPosition0_some ctx p st pos hpos
  obtain ⟨nf, fi, hf⟩ :=
    applyFunding_position_shape st ctx p (ctx.address, p.id) (pmPosition0 ctx p st)
      (pmStat0 p st) (resolveAccount st p.account)
  have hfp : (pmFunding ctx p st).2.1.avgEntryPrice = pos.avgEntryPrice ∧
      (pmFunding ctx p st).2.1.size = pos.size ∧ (pmFunding ctx p st).2.1.pnl = pos.pnl := by
    unfold pmFunding
    rw [hf, hp0]
    exact ⟨rfl, rfl, rfl⟩
  have hbr := pmBranch_eq_of_tradeSize_nonzero ctx p st htz
  have hclose :=
    tradeBranch_close_fields ctx p (resolveAccount st p.account) p.account
      (resolveAccountType st p.account) (st.markets ctx.address) (ctx.address, p.id)
      (pmFunding ctx p st).1 (pmFunding ctx p st).2.1 (pmFunding ctx p st).2.2.1
      (pmCumulative0 p st) (pmFunding ctx p st).2.2.2 hsz
  refine ⟨?_, ?_, ?_⟩
  · intro pos2 hpos2
    rw [handlePositionModified_positions] at hpos2
    have hp2 : pos2 = trailingPosition ctx p (pmBranch ctx p st).1 :=
      (Option.some_inj.mp hpos2).symm
    rw [hp2]
    refine ⟨?_, ?_, ?_, ?_⟩
    · have e : (trailingPosition ctx p (pmBranch ctx p st).1).pnl =
          (pmBranch ctx p st).1.pnl := by simp [trailingPosition]
      rw [e, hbr, hclose.1, hfp.1, hfp.2.1, hfp.2.2]
    · have e : (trailingPosition ctx p (pmBranch ctx p st).1).isOpen =
          (pmBranch ctx p st).1.isOpen := by simp [trailingPosition]
      rw [e, hbr, hclose.2.1]
    · have e : (trailingPosition ctx p (pmBranch ctx p st).1).exitPrice =
          (pmBranch ctx p st).1.exitPrice := by simp [trailingPosition]
      rw [e, hbr, hclose.2.2.1]
    · have e : (trailingPosition ctx p (pmBranch ctx p st).1).closeTimestamp =
          (pmBranch ctx p st).1.closeTimestamp := by simp [trailingPosition]
      rw [e, hbr, hclose.2.2.2.1]
  · intro s0 hs0 s2 hs2
    rw [handlePositionModified_stats] at hs2
    have hs2e : s2 = trailingStat p (pmBranch ctx p st).2.1 :=
      (Option.some_inj.mp hs2).symm
    rw [hs2e]
    obtain ⟨fp, hsf⟩ :=
      applyFunding_stat_shape st ctx p (ctx.address, p.id) (pmPosition0 ctx p st)
        (pmStat0 p st) (resolveAccount st p.account)
    have hsp : (pmFunding ctx p st).2.2.1.pnl = s0.pnl := by
      unfold pmFunding
      rw [hsf, pmStat0_some p st s0 hs0]
    have e : (trailingStat p (pmBranch ctx p st).2.1).pnl =
        (pmBranch ctx p st).2.1.pnl := by simp [trailingStat]
    rw [e, hbr, hclose.2.2.2.2.1, hsp, hfp.1, hfp.2.1]
  · rw [handlePositionModified_trades, hbr, hclose.2.2.2.2.2, hfp.1, hfp.2.1]

/-- C4: a full close realizes PnL = (lastPrice - avgEntryPrice) * oldSize /
UNIT on the trade, the position and the stat, closes the position and records
exit price and close timestamp; and a single open-then-full-close round trip
of size S from price P1 to price P2 yields trade PnL = (P2 - P1) * S / UNIT,
with position.pnl equal to that value. -/
theorem c4_close_pnl :
    (∀ (ctx : Ctx) (p : PositionModifiedParams) (st : Store) (pos : FuturesPosition),
      st.positions (ctx.address, p.id) = some pos → p.tradeSize ≠ 0 → p.size = 0 →
      (∀ pos2, (handlePositionModified ctx p st).positions (ctx.address, p.id) = some pos2 →
        pos2.pnl = pos.pnl + Int.tdiv ((p.lastPrice - pos.avgEntryPrice) * pos.size) ETHER ∧
        pos2.isOpen = false ∧ pos2.exitPrice = some p.lastPrice ∧
        pos2.closeTimestamp = some ctx.timestamp) ∧
      (∀ s0, st.stats (resolveAccount st p.account) = some s0 →
        ∀ s2, (handlePositionModified ctx p st).stats (resolveAccount st p.account) = some s2 →
          s2.pnl = s0.pnl + Int.tdiv ((p.lastPrice - pos.avgEntryPrice) * pos.size) ETHER) ∧
      ((handlePositionModified ctx p st).trades (ctx.txHash, ctx.logIndex)).map
          FuturesTrade.pnl =
        some (Int.tdiv ((p.lastPrice - pos.avgEntryPrice) * pos.size) ETHER)) ∧
    (∀ (ctx1 : Ctx) (p1 : PositionModifiedParams) (ctx2 : Ctx)
        (p2 : PositionModifiedParams) (st : Store),
      st.positions (ctx1.address, p1.id) = none →
      p1.tradeSize = p1.size → p1.size ≠ 0 →
      ctx2.address = ctx1.address → p2.id = p1.id → p2.tradeSize ≠ 0 → p2.size = 0 →
      (∀ pos2, (handlePositionModified ctx2 p2 (handlePositionModified ctx1 p1 st)).positions
          (ctx2.address, p2.id) = some pos2 →
        pos2.pnl = Int.tdiv ((p2.lastPrice - p1.lastPrice) * p1.size) ETHER ∧
        pos2.isOpen = false) ∧
      ((handlePositionModified ctx2 p2 (handlePositionModified ctx1 p1 st)).trades
          (ctx2.txHash, ctx2.logIndex)).map FuturesTrade.pnl =
        some (Int.tdiv ((p2.lastPrice - p1.lastPrice) * p1.size) ETHER)) := by
  constructor
  · intro ctx p st pos hpos htz hsz
    exact closeCase_aux ctx p st pos hpos htz hsz
  · intro ctx1 p1 ctx2 p2 st hnone hts hs1 haddr hid htz2 hsz2
    have htz1 : p1.tradeSize ≠ 0 := by rw [hts]; exact hs1
    have hp0 : pmPosition0 ctx1 p1 st =
        newFuturesPosition ctx1 p1 (st.markets ctx1.address) (resolveAccount st p1.account)
          p1.account (resolveAccountType st p1.account) := by
      simp [pmPosition0, hnone]
    have hfund : pmFunding ctx1 p1 st =
        (0, pmPosition0 ctx1 p1 st, pmStat0 p1 st, st) := by
      unfold pmFunding
      apply applyFunding_eq_same
      rw [hp0]
      rfl
    have hbr1 := pmBranch_eq_of_tradeSize_nonzero ctx1 p1 st htz1
    have hred :=
      tradeBranch_reduce_fields ctx1 p1 (resolveAccount st p1.account) p1.account
        (resolveAccountType st p1.account) (st.markets ctx1.address) (ctx1.address, p1.id)
        (pmFunding ctx1 p1 st).1 (pmFunding ctx1 p1 st).2.1 (pmFunding ctx1 p1 st).2.2.1
        (pmCumulative0 p1 st) (pmFunding ctx1 p1 st).2.2.2
        hs1
        (by
          rw [hfund, hp0]
          show ¬((p1.size < 0 ∧ 0 < p1.size) ∨ (0 < p1.size ∧ p1.size < 0))
          omega)
        (by
          rw [hfund, hp0]
          show ¬(p1.size.natAbs < p1.size.natAbs)
          omega)
    have hApnl : (trailingPosition ctx1 p1 (pmBranch ctx1 p1 st).1).pnl = 0 := by
      have e : (trailingPosition ctx1 p1 (pmBranch ctx1 p1 st).1).pnl =
          (pmBranch ctx1 p1 st).1.pnl := by simp [trailingPosition]
      rw [e, hbr1, hred.1, hfund, hp0]
      show (0 : Int) +
          Int.tdiv ((p1.lastPrice - p1.lastPrice) * (p1.tradeSize.natAbs : Int) *
            (if 0 < p1.size then 1 else -1)) ETHER = 0
      simp
    have hAavg : (trailingPosition ctx1 p1 (pmBranch ctx1 p1 st).1).avgEntryPrice =
        p1.lastPrice := by
      have e : (trailingPosition ctx1 p1 (pmBranch ctx1 p1 st).1).avgEntryPrice =
          (pmBranch ctx1 p1 st).1.avgEntryPrice := by simp [trailingPosition]
      rw [e, hbr1, hred.2.1, hfund, hp0]
      rfl
    have hAsize : (trailingPosition ctx1 p1 (pmBranch ctx1 p1 st).1).size = p1.size := by
      simp [trailingPosition]
    have hpos2 : (handlePositionModified ctx1 p1 st).positions (ctx2.address, p2.id) =
        some (trailingPosition ctx1 p1 (pmBranch ctx1 p1 st).1) := by
      rw [haddr, hid]
      exact handlePositionModified_positions ctx1 p1 st
    have h2 :=
      closeCase_aux ctx2 p2 (handlePositionModified ctx1 p1 st)
        (trailingPosition ctx1 p1 (pmBranch ctx1 p1 st).1) hpos2 htz2 hsz2
    constructor
    · intro pos2 hlook
      obtain ⟨e1, e2, _, _⟩ := h2.1 pos2 hlook
      refine ⟨?_, e2⟩
      rw [e1, hApnl, hAavg, hAsize]
      ring_nf
    · rw [h2.2.2, hAavg, hAsize]

/-- C4 witness: the concrete close of a size-2 position from average entry
1 ETHER at price 3 ETHER realizes PnL 4 on trade, position and stat; and the
concrete round trip of size 4 from 2 ETHER to 5 ETHER realizes PnL 12. -/
theorem c4_close_pnl_witness :
    (((handlePositionModified c4ctx c4p c4store).positions (c4ctx.address, c4p.id)).map
        (fun q => decide (q.pnl = 11 ∧ q.isOpen = false)) = some true) ∧
    (((handlePositionModified c4ctx c4p c4store).stats
        (resolveAccount c4store c4p.account)).map
        (fun s => decide (s.pnl = 5)) = some true) ∧
    (((handlePositionModified c4ctx2 c4p2 (handlePositionModified c4ctx1 c4p1 emptyStore)).positions
        (c4ctx2.address, c4p2.id)).map
        (fun q => decide (q.pnl = 12 ∧ q.isOpen = false)) = some true) ∧
    ((handlePositionModified c4ctx2 c4p2 (handlePositionModified c4ctx1 c4p1 emptyStore)).trades
        (c4ctx2.txHash, c4ctx2.logIndex)).map FuturesTrade.pnl = some 12 := by
  have hA := c4_close_pnl.1 c4ctx c4p c4store c4pos rfl (by decide) rfl
  have hB :=
    c4_close_pnl.2 c4ctx1 c4p1 c4ctx2 c4p2 emptyStore rfl rfl (by decide) rfl rfl
      (by decide) rfl
  refine ⟨?_, ?_, ?_, ?_⟩
  · rw [handlePositionModified_positions]
    have h2 := hA.1 _ (handlePositionModified_positions c4ctx c4p c4store)
    have e1 : (trailingPosition c4ctx c4p (pmBranch c4ctx c4p c4store).1).pnl = 11 := by
      rw [h2.1]
      decide
    simp [e1, h2.2.1]
  · rw [handlePositionModified_stats]
    have h2 := hA.2.1 c4stat rfl _ (handlePositionModified_stats c4ctx c4p c4store)
    have e : (trailingStat c4p (pmBranch c4ctx c4p c4store).2.1).pnl = 5 := by
      rw [h2]
      decide
    simp [e]
  · rw [handlePositionModified_positions]
    have h2 := hB.1 _ (handlePositionModified_positions c4ctx2 c4p2
      (handlePositionModified c4ctx1 c4p1 emptyStore))
    have e1 : (trailingPosition c4ctx2 c4p2
        (pmBranch c4ctx2 c4p2 (handlePositionModified c4ctx1 c4p1 emptyStore)).1).pnl = 12 := by
      rw [h2.1]
      decide
    simp [e1, h2.2]
  · rw [hB.2]
    decide

end Perps
